import Mathlib

/-!
# Verification of the SparkPost SMTP bulk dispatcher (`src/smtp.py`)

Shallow embedding of `SparkPostSMTPSender.send_batch`, `send_emails` and
`_get_timing_summary`. The effectful SMTP primitives (connection opening,
the MAIL/RCPT/DATA commands, QUIT) are modelled by an oracle `Env` that
returns the outcome of each call, indexed by a per-primitive call counter;
the interpreter threads an explicit `SendState` mirroring the Python local
variables (`sent_count`, `failed_messages`, `message_latencies`, `smtp`)
and records an event trace (connections opened, commands issued, QUIT
calls with their context) so that session-lifecycle properties can be
stated.  Durations are modelled as exact rationals.  Timing-statistics
appends (`_update_timing_stats`, `_log_smtp_command_timing`) never raise
and never influence control flow in the source, so `send_batch` does not
thread them; the timing summary `_get_timing_summary` is modelled
separately as a pure function of a `TimingStats` record.
-/

namespace SparkPost

/-- One entry of the `emails` list handed to `send_emails`.  The source
treats each entry as an untyped dict; for the claims only the presence of
the three required fields (`to_email`, `subject`, `text_content`) and the
dict-ness check matter, so the model keeps presence flags plus an `id`
distinguishing messages.  -/
structure EmailData where
  id : Nat := 0
  is_dict : Bool := true
  has_to_email : Bool := true
  has_subject : Bool := true
  has_text_content : Bool := true
deriving Repr, DecidableEq

/-- `[field for field in required_fields if field not in email_data]`
(src/smtp.py lines 257-258), in the source's order. -/
def missing_fields (d : EmailData) : List String :=
  (if d.has_to_email then [] else ["to_email"]) ++
    (if d.has_subject then [] else ["subject"]) ++
      (if d.has_text_content then [] else ["text_content"])

/-- Result of one underlying smtplib call: the call itself raised, or it
returned a status code. -/
inductive CmdRes
  | raised
  | code (n : Nat)
deriving Repr, DecidableEq

/-- Oracle fixing the outcome of every effectful call of one `send_batch`
run: the n-th `create_smtp_connection` call succeeds or raises, the n-th
MAIL/RCPT/DATA/QUIT command returns its `CmdRes`, and `sendTime n` is the
wall-clock latency recorded for the n-th successful send. -/
structure Env where
  connect : Nat → Bool
  mail : Nat → CmdRes
  rcpt : Nat → CmdRes
  data : Nat → CmdRes
  quit : Nat → CmdRes
  sendTime : Nat → ℚ

/-- The Python exceptions that drive `send_batch`'s control flow.
`attribute_error` is the `AttributeError` raised by
`email_data.get('to_email', 'unknown')` in the handler's log line (314)
when `email_data` is not a dict. -/
inductive PyErr
  | not_a_dict
  | missing_required (fields : List String)
  | mail_from_failed
  | rcpt_to_failed
  | data_failed
  | cmd_raised (cmd : String)
  | connect_failed
  | attribute_error
deriving Repr, DecidableEq

/-- A `failed_messages` entry: an individual per-message failure appended
by the inner handler (line 316), or a `"Batch error: ..."` entry appended
by the outer handler (line 339). -/
inductive ErrEntry
  | individual (e : PyErr)
  | batch_error (e : PyErr)
deriving Repr, DecidableEq

/-- Which of the three `smtp.quit()` sites issued a QUIT: the scheduled
refresh (line 306), the replacement after a per-message failure
(line 324), or the `finally` cleanup (line 348). -/
inductive QuitCtx
  | scheduled_refresh
  | failure_replace
  | cleanup
deriving Repr, DecidableEq

/-- Observable events of one `send_batch` run, in order. -/
inductive Event
  | connect_attempt (ok : Bool)
  | opened (sid : Nat)
  | msg_start (i : Nat)
  | cmd_issued (cmd : String) (i : Nat)
  | sent_ok (i : Nat)
  | validation_failed (i : Nat)
  | quit_call (sid : Nat) (res : CmdRes) (ctx : QuitCtx)
  | scheduled_refresh_done (i : Nat)
deriving Repr, DecidableEq

/-- The mutable local state of one `send_batch` run: the three accumulators
of lines 241-243, the current connection (`smtp`, holding the session id),
the per-primitive call counters consumed from the `Env`, and the event
trace. -/
structure SendState where
  sent_count : Nat := 0
  failed_messages : List (EmailData × ErrEntry) := []
  message_latencies : List ℚ := []
  smtp : Option Nat := none
  n_connect : Nat := 0
  n_mail : Nat := 0
  n_rcpt : Nat := 0
  n_data : Nat := 0
  n_quit : Nat := 0
  events : List Event := []
deriving Repr, DecidableEq

/-- `create_smtp_connection` (lines 166-216): either yields a fresh session
(identified by the connect-call index) or raises.  Transport/EHLO/TLS/auth
sub-steps are atomic here: any sub-step failure makes the whole call raise
and no usable session exists afterwards. -/
def create_smtp_connection (env : Env) (s : SendState) : Option Nat × SendState :=
  let k := s.n_connect
  let ok := env.connect k
  let s := { s with n_connect := k + 1, events := s.events ++ [.connect_attempt ok] }
  if ok then (some k, { s with events := s.events ++ [.opened k] }) else (none, s)

/-- One `smtp.quit()` call: consumes the next QUIT outcome from the oracle
and records the call with its context. -/
def do_quit (env : Env) (s : SendState) (sid : Nat) (ctx : QuitCtx) : CmdRes × SendState :=
  let res := env.quit s.n_quit
  (res, { s with n_quit := s.n_quit + 1, events := s.events ++ [.quit_call sid res ctx] })

/-- Result of the inner `try` body for one message: it ran to completion,
or a Python exception was raised (to be caught by the inner handler). -/
inductive TryRes
  | ok
  | exn (e : PyErr)
deriving Repr, DecidableEq

/-- The inner `try` body for message `i` (lines 252-311): dict check,
required-field validation, message build, MAIL/RCPT/DATA with status-code
checks, latency/sent accounting on success, then the scheduled refresh
`if (i + 1) % messages_per_connection == 0 and i + 1 < len(batch)`.
The scheduled-refresh `smtp.quit()` and replacement
`create_smtp_connection()` sit inside this `try`, so their errors are
raised to the inner handler.  (Lean's `% 0` convention differs from
Python's `ZeroDivisionError`; all claims take a positive threshold.) -/
def process_try (env : Env) (messages_per_connection : Nat) (batch_len : Nat)
    (i : Nat) (d : EmailData) (s : SendState) : TryRes × SendState :=
  if d.is_dict = false then (.exn .not_a_dict, s)
  else if missing_fields d ≠ [] then
    (.exn (.missing_required (missing_fields d)),
      { s with events := s.events ++ [.validation_failed i] })
  else
    let resM := env.mail s.n_mail
    let s := { s with n_mail := s.n_mail + 1, events := s.events ++ [.cmd_issued "MAIL" i] }
    match resM with
    | .raised => (.exn (.cmd_raised "MAIL"), s)
    | .code cM =>
      if cM ≠ 250 then (.exn .mail_from_failed, s)
      else
        let resR := env.rcpt s.n_rcpt
        let s := { s with n_rcpt := s.n_rcpt + 1, events := s.events ++ [.cmd_issued "RCPT" i] }
        match resR with
        | .raised => (.exn (.cmd_raised "RCPT"), s)
        | .code cR =>
          if cR ≠ 250 then (.exn .rcpt_to_failed, s)
          else
            let resD := env.data s.n_data
            let s := { s with n_data := s.n_data + 1,
                              events := s.events ++ [.cmd_issued "DATA" i] }
            match resD with
            | .raised => (.exn (.cmd_raised "DATA"), s)
            | .code cD =>
              if cD ≠ 250 then (.exn .data_failed, s)
              else
                let s := { s with
                  message_latencies := s.message_latencies ++ [env.sendTime s.sent_count],
                  sent_count := s.sent_count + 1,
                  events := s.events ++ [.sent_ok i] }
                if (i + 1) % messages_per_connection = 0 ∧ i + 1 < batch_len then
                  let sid := s.smtp.getD 0
                  let (qres, s) := do_quit env s sid .scheduled_refresh
                  match qres with
                  | .raised => (.exn (.cmd_raised "QUIT"), s)
                  | .code _ =>
                    match create_smtp_connection env s with
                    | (none, s) => (.exn .connect_failed, s)
                    | (some nid, s) =>
                      (.ok, { s with smtp := some nid,
                                     events := s.events ++ [.scheduled_refresh_done i] })
                else (.ok, s)

/-- The inner `except` handler (lines 313-332).  Its first statement, the
log line 314, evaluates `email_data.get('to_email', 'unknown')`: when
`email_data` is not a dict, that call itself raises `AttributeError`,
which escapes to the outer handler before anything is appended and before
any Session interaction.  Otherwise: append the individual failure, then
— whenever a connection exists — QUIT it (errors swallowed by the nested
`try/except: pass`) and open a replacement; a raise from that replacement
`create_smtp_connection()` escapes to the outer handler, signalled here by
a `some` first component. -/
def handle_msg_exn (env : Env) (d : EmailData) (e : PyErr) (s : SendState) :
    Option PyErr × SendState :=
  if d.is_dict = false then (some .attribute_error, s)
  else
    let s := { s with failed_messages := s.failed_messages ++ [(d, ErrEntry.individual e)] }
    match s.smtp with
    | none => (none, s)
    | some sid =>
      let (_, s) := do_quit env s sid .failure_replace
      match create_smtp_connection env s with
      | (none, s) => (some .connect_failed, s)
      | (some nid, s) => (none, { s with smtp := some nid })

/-- The `for i, email_data in enumerate(batch)` loop (lines 250-332):
each iteration runs the inner `try` body and, on an exception, the inner
handler; a `some` first component is an exception escaping to the outer
handler, aborting the loop. -/
def send_batch_loop (env : Env) (messages_per_connection : Nat) (batch_len : Nat) :
    List EmailData → Nat → SendState → Option PyErr × SendState
  | [], _, s => (none, s)
  | d :: rest, i, s =>
    let s := { s with events := s.events ++ [.msg_start i] }
    match process_try env messages_per_connection batch_len i d s with
    | (.ok, s) => send_batch_loop env messages_per_connection batch_len rest (i + 1) s
    | (.exn e, s) =>
      match handle_msg_exn env d e s with
      | (none, s) => send_batch_loop env messages_per_connection batch_len rest (i + 1) s
      | (some be, s) => (some be, s)

/-- The outer `except` handler (lines 334-342): when an exception escaped
the loop, append `batch[sent_count:]` as `"Batch error"` failures — the
slice starts at `sent_count` (line 338), not at the first unattempted
index. -/
def mark_remaining_failed (batch : List EmailData) (r : Option PyErr × SendState) :
    SendState :=
  match r with
  | (some e, s) =>
    { s with failed_messages :=
        s.failed_messages ++
          (batch.drop s.sent_count).map (fun d => (d, ErrEntry.batch_error e)) }
  | (none, s) => s

/-- The `finally` block (lines 343-352): QUIT the current connection, if
any, with every error swallowed by the nested `try/except: pass`. -/
def final_cleanup (env : Env) (s : SendState) : SendState :=
  match s.smtp with
  | none => s
  | some sid => (do_quit env s sid .cleanup).2

/-- `send_batch` (lines 239-354): open the initial connection (a raise
goes straight to the outer handler with `sent_count = 0`), run the
per-message loop, apply the outer handler to an escaped exception, and
run the `finally` cleanup. -/
def send_batch (env : Env) (messages_per_connection : Nat) (batch : List EmailData) :
    SendState :=
  final_cleanup env <| mark_remaining_failed batch <|
    match create_smtp_connection env ({} : SendState) with
    | (none, s1) => (some PyErr.connect_failed, s1)
    | (some sid, s1) =>
      send_batch_loop env messages_per_connection batch.length batch 0
        { s1 with smtp := some sid }

/-- The batch split of `send_emails` (line 364):
`[emails[i:i + batch_size] for i in range(0, len(emails), batch_size)]`. -/
def batches_of {α : Type} (batch_size : Nat) : List α → List (List α)
  | [] => []
  | e :: es =>
    if batch_size = 0 then []
    else (e :: es).take batch_size :: batches_of batch_size ((e :: es).drop batch_size)
termination_by es => es.length
decreasing_by
  simp only [List.length_drop, List.length_cons]
  omega

/-- Python's `min` over a non-empty list (the `[]` case is unreachable
behind the source's non-emptiness guards). -/
def pyListMin : List ℚ → ℚ
  | [] => 0
  | x :: xs => xs.foldl min x

/-- Python's `max` over a non-empty list. -/
def pyListMax : List ℚ → ℚ
  | [] => 0
  | x :: xs => xs.foldl max x

/-- The `results` dict returned by `send_emails` (lines 393-405), minus the
`timing_stats` entry, which is modelled separately by
`get_timing_summary`. -/
structure Results where
  total_emails : Nat
  successfully_sent : Nat
  failed : Nat
  elapsed_seconds : ℚ
  emails_per_second : ℚ
  avg_latency_ms : ℚ
  min_latency_ms : ℚ
  max_latency_ms : ℚ
  implied_latency_ms : ℚ
  failed_details : List (EmailData × ErrEntry)
deriving Repr, DecidableEq

/-- `send_emails` (lines 356-407).  Each batch runs `send_batch` against
its own oracle `env_for j`; the thread-pool accumulation
(`for future in as_completed(futures)`) merges per-batch results in a
nondeterministic completion order, modelled here as submission order —
the sums, lengths and extremal statistics below are order-independent.
`elapsed_time` is wall clock, supplied as a parameter. -/
def send_emails (env_for : Nat → Env) (elapsed_time : ℚ)
    (messages_per_connection : Nat) (emails : List EmailData) (batch_size : Nat) :
    Results :=
  let batches := batches_of batch_size emails
  let reports := batches.mapIdx fun j b => send_batch (env_for j) messages_per_connection b
  let total_sent : Nat := (reports.map (·.sent_count)).sum
  let all_failed := (reports.map (·.failed_messages)).flatten
  let all_latencies := (reports.map (·.message_latencies)).flatten
  let rate := if elapsed_time > 0 then (total_sent : ℚ) / elapsed_time else 0
  let avg_latency :=
    if all_latencies ≠ [] then all_latencies.sum / (all_latencies.length : ℚ) else 0
  let implied_latency :=
    if total_sent > 0 then (elapsed_time * 1000) / (total_sent : ℚ) else 0
  { total_emails := emails.length
    successfully_sent := total_sent
    failed := all_failed.length
    elapsed_seconds := elapsed_time
    emails_per_second := rate
    avg_latency_ms := avg_latency
    min_latency_ms := if all_latencies ≠ [] then pyListMin all_latencies else 0
    max_latency_ms := if all_latencies ≠ [] then pyListMax all_latencies else 0
    implied_latency_ms := implied_latency
    failed_details := all_failed }

/-! ## The timing summary (`_get_timing_summary`, lines 71-97) -/

/-- The per-command sample lists of `timing_stats['message_smtp_commands']`
(lines 56-62). -/
structure CmdTimes where
  MAIL : List ℚ := []
  RCPT : List ℚ := []
  DATA : List ℚ := []
  MESSAGE : List ℚ := []
  QUIT : List ℚ := []
deriving Repr, DecidableEq

/-- The `timing_stats` dict (lines 47-65), in insertion order. -/
structure TimingStats where
  connection_setup_total : List ℚ := []
  connection_initial : List ℚ := []
  connection_ehlo : List ℚ := []
  connection_tls : List ℚ := []
  connection_post_tls_ehlo : List ℚ := []
  authentication : List ℚ := []
  message_creation : List ℚ := []
  message_send : List ℚ := []
  message_smtp_commands : CmdTimes := {}
  connection_refresh : List ℚ := []
  connection_cleanup : List ℚ := []
deriving Repr, DecidableEq

/-- One `{min, avg, max, total, count}` summary record. -/
structure StatEntry where
  min : ℚ
  avg : ℚ
  max : ℚ
  total : ℚ
  count : Nat
deriving Repr, DecidableEq

/-- The record built for a non-empty sample list (lines 80-86 and 90-96). -/
def stat_entry (times : List ℚ) : StatEntry :=
  { min := pyListMin times
    avg := times.sum / (times.length : ℚ)
    max := pyListMax times
    total := times.sum
    count := times.length }

/-- A value of the summary dict: a plain per-phase record, or the nested
per-command map built for `message_smtp_commands`. -/
inductive SummaryVal
  | plain (e : StatEntry)
  | cmds (m : List (String × StatEntry))
deriving Repr, DecidableEq

/-- The `cmd_summary` dict (lines 77-86): one entry per command whose
sample list is non-empty, in the commands' insertion order. -/
def cmd_summary (c : CmdTimes) : List (String × StatEntry) :=
  (if c.MAIL ≠ [] then [("MAIL", stat_entry c.MAIL)] else []) ++
    (if c.RCPT ≠ [] then [("RCPT", stat_entry c.RCPT)] else []) ++
      (if c.DATA ≠ [] then [("DATA", stat_entry c.DATA)] else []) ++
        (if c.MESSAGE ≠ [] then [("MESSAGE", stat_entry c.MESSAGE)] else []) ++
          (if c.QUIT ≠ [] then [("QUIT", stat_entry c.QUIT)] else [])

/-- `_get_timing_summary` (lines 71-97), as an association list in the
iteration order of `timing_stats`.  A list-valued state is added only when
its sample list is non-empty (`elif times:`), but the dict-valued
`message_smtp_commands` state is added unconditionally
(`summary[state] = cmd_summary` sits outside any emptiness guard). -/
def get_timing_summary (t : TimingStats) : List (String × SummaryVal) :=
  (if t.connection_setup_total ≠ [] then
      [("connection_setup_total", SummaryVal.plain (stat_entry t.connection_setup_total))]
    else []) ++
  (if t.connection_initial ≠ [] then
      [("connection_initial", SummaryVal.plain (stat_entry t.connection_initial))]
    else []) ++
  (if t.connection_ehlo ≠ [] then
      [("connection_ehlo", SummaryVal.plain (stat_entry t.connection_ehlo))]
    else []) ++
  (if t.connection_tls ≠ [] then
      [("connection_tls", SummaryVal.plain (stat_entry t.connection_tls))]
    else []) ++
  (if t.connection_post_tls_ehlo ≠ [] then
      [("connection_post_tls_ehlo", SummaryVal.plain (stat_entry t.connection_post_tls_ehlo))]
    else []) ++
  (if t.authentication ≠ [] then
      [("authentication", SummaryVal.plain (stat_entry t.authentication))]
    else []) ++
  (if t.message_creation ≠ [] then
      [("message_creation", SummaryVal.plain (stat_entry t.message_creation))]
    else []) ++
  (if t.message_send ≠ [] then
      [("message_send", SummaryVal.plain (stat_entry t.message_send))]
    else []) ++
  [("message_smtp_commands", SummaryVal.cmds (cmd_summary t.message_smtp_commands))] ++
  (if t.connection_refresh ≠ [] then
      [("connection_refresh", SummaryVal.plain (stat_entry t.connection_refresh))]
    else []) ++
  (if t.connection_cleanup ≠ [] then
      [("connection_cleanup", SummaryVal.plain (stat_entry t.connection_cleanup))]
    else [])

/-! ## Observations on the event trace -/

/-- The ids of the sessions opened during a run, in order. -/
def openedIds (evs : List Event) : List Nat :=
  evs.filterMap fun e => match e with | .opened sid => some sid | _ => none

/-- The session ids of all QUIT calls issued during a run, in order (one
entry per call, whatever its result or context). -/
def quitIds (evs : List Event) : List Nat :=
  evs.filterMap fun e => match e with | .quit_call sid _ _ => some sid | _ => none

/-- The message indices after which a scheduled refresh completed. -/
def refreshPositions (evs : List Event) : List Nat :=
  evs.filterMap fun e => match e with | .scheduled_refresh_done i => some i | _ => none

/-- Session-lifecycle invariant, all environments: every session opened so
far has already received a QUIT call, or is the current connection (and
will be QUIT by the `finally` cleanup). -/
def quitInv (s : SendState) : Prop :=
  ∀ sid ∈ openedIds s.events, sid ∈ quitIds s.events ∨ s.smtp = some sid

/-- Session-lifecycle invariant for runs in which every connection opens
and no QUIT raises: session ids stay below the connect counter, opened ids
are distinct, the current session has received no QUIT call yet, and every
other opened session has received exactly one. -/
def quitOnceInv (s : SendState) : Prop :=
  (∀ sid ∈ openedIds s.events, sid < s.n_connect) ∧
  (∀ sid ∈ quitIds s.events, sid < s.n_connect) ∧
  (openedIds s.events).Nodup ∧
  ∃ cur, s.smtp = some cur ∧ cur ∈ openedIds s.events ∧
    (quitIds s.events).count cur = 0 ∧
    ∀ sid ∈ openedIds s.events, sid ≠ cur → (quitIds s.events).count sid = 1

/-! ## Environment and message predicates -/

/-- Every `create_smtp_connection` call in the run succeeds. -/
def connectAlwaysOk (env : Env) : Prop := ∀ n, env.connect n = true

/-- No `smtp.quit()` call raises (it may still return any status code;
a non-221 code only triggers a log warning in the source). -/
def quitNeverRaises (env : Env) : Prop := ∀ n, env.quit n ≠ CmdRes.raised

/-- A fully successful environment: every connection opens, every
MAIL/RCPT/DATA returns 250 and every QUIT returns 221. -/
structure AllOk (env : Env) : Prop where
  connect : ∀ n, env.connect n = true
  mail : ∀ n, env.mail n = CmdRes.code 250
  rcpt : ∀ n, env.rcpt n = CmdRes.code 250
  data : ∀ n, env.data n = CmdRes.code 250
  quit : ∀ n, env.quit n = CmdRes.code 221

/-- A message that passes the dict check and the required-field
validation. -/
def validMessage (d : EmailData) : Prop := d.is_dict = true ∧ missing_fields d = []

/-! ## Concrete fixtures for counterexamples and witnesses -/

/-- Environment in which every call succeeds. -/
def envAllOk : Env :=
  { connect := fun _ => true
    mail := fun _ => .code 250
    rcpt := fun _ => .code 250
    data := fun _ => .code 250
    quit := fun _ => .code 221
    sendTime := fun _ => 1 }

/-- Environment in which only the initial connection opens; every later
`create_smtp_connection` (replacement or refresh) raises. -/
def envReconnectFails : Env := { envAllOk with connect := fun n => n == 0 }

/-- Environment for the session-lifecycle counterexample: the first QUIT
(the scheduled refresh) raises, and no replacement connection can be
opened. -/
def envQuitRaises : Env :=
  { envAllOk with
      connect := fun n => n == 0
      quit := fun n => if n == 0 then .raised else .code 221 }

/-- Environment in which the MAIL command of the first message returns a
non-250 code and everything else succeeds. -/
def envMailZeroFails : Env :=
  { envAllOk with mail := fun n => if n == 0 then .code 550 else .code 250 }

/-- A valid test message. -/
def okMsg (n : Nat) : EmailData := { id := n }

/-- A test message with the `subject` field missing. -/
def noSubjectMsg (n : Nat) : EmailData := { id := n, has_subject := false }

/-! ## Latency accounting (claim C8) -/

theorem process_try_latency_len (env : Env) (mpc len i : Nat) (d : EmailData) (s : SendState)
    (h : s.message_latencies.length = s.sent_count) :
    (process_try env mpc len i d s).2.message_latencies.length =
      (process_try env mpc len i d s).2.sent_count := by
  simp only [process_try, do_quit, create_smtp_connection]
  repeat' split
  all_goals try split_ifs at *
  all_goals try casesm* _ ∧ _
  all_goals subst_eqs
  all_goals simp_all

theorem handle_msg_exn_latency_len (env : Env) (d : EmailData) (e : PyErr) (s : SendState)
    (h : s.message_latencies.length = s.sent_count) :
    (handle_msg_exn env d e s).2.message_latencies.length =
      (handle_msg_exn env d e s).2.sent_count := by
  simp only [handle_msg_exn, do_quit, create_smtp_connection]
  repeat' split
  all_goals try split_ifs at *
  all_goals subst_eqs
  all_goals simp_all

theorem send_batch_loop_latency_len (env : Env) (mpc len : Nat) (rest : List EmailData) :
    ∀ (i : Nat) (s : SendState),
      s.message_latencies.length = s.sent_count →
      (send_batch_loop env mpc len rest i s).2.message_latencies.length =
        (send_batch_loop env mpc len rest i s).2.sent_count := by
  induction rest with
  | nil => intro i s h; exact h
  | cons d rest ih =>
    intro i s h
    rcases hp : process_try env mpc len i d
        { s with events := s.events ++ [Event.msg_start i] } with ⟨tr, s'⟩
    have h2 : s'.message_latencies.length = s'.sent_count := by
      have := process_try_latency_len env mpc len i d
        { s with events := s.events ++ [Event.msg_start i] } h
      rwa [hp] at this
    cases tr with
    | ok => simpa only [send_batch_loop, hp] using ih (i + 1) s' h2
    | exn e =>
      rcases hh : handle_msg_exn env d e s' with ⟨esc, s''⟩
      have h3 : s''.message_latencies.length = s''.sent_count := by
        have := handle_msg_exn_latency_len env d e s' h2
        rwa [hh] at this
      cases esc with
      | none => simpa only [send_batch_loop, hp, hh] using ih (i + 1) s'' h3
      | some be => simpa only [send_batch_loop, hp, hh] using h3

theorem mark_remaining_failed_latency_len (batch : List EmailData)
    (r : Option PyErr × SendState)
    (h : r.2.message_latencies.length = r.2.sent_count) :
    (mark_remaining_failed batch r).message_latencies.length =
      (mark_remaining_failed batch r).sent_count := by
  unfold mark_remaining_failed
  split
  all_goals simp_all

theorem final_cleanup_latency_len (env : Env) (s : SendState)
    (h : s.message_latencies.length = s.sent_count) :
    (final_cleanup env s).message_latencies.length = (final_cleanup env s).sent_count := by
  unfold final_cleanup do_quit
  split
  all_goals simp_all

theorem create_smtp_connection_keeps (env : Env) (s : SendState) :
    (create_smtp_connection env s).2.message_latencies = s.message_latencies ∧
    (create_smtp_connection env s).2.sent_count = s.sent_count ∧
    (create_smtp_connection env s).2.failed_messages = s.failed_messages := by
  simp only [create_smtp_connection]
  split <;> simp

theorem send_batch_latency_len (env : Env) (mpc : Nat) (batch : List EmailData) :
    (send_batch env mpc batch).message_latencies.length =
      (send_batch env mpc batch).sent_count := by
  unfold send_batch
  apply final_cleanup_latency_len
  apply mark_remaining_failed_latency_len
  rcases hc : create_smtp_connection env ({} : SendState) with ⟨oc, s1⟩
  have hk := create_smtp_connection_keeps env ({} : SendState)
  rw [hc] at hk
  have h1 : s1.message_latencies.length = s1.sent_count := by
    simp only at hk
    rw [hk.1, hk.2.1]
    rfl
  cases oc with
  | none => simpa only using h1
  | some sid =>
    simpa only using send_batch_loop_latency_len env mpc batch.length batch 0
      { s1 with smtp := some sid } h1

/-- Claim C8 — for every run, per batch and merged over the dispatch:
one latency sample is recorded exactly per successful send, so
`len(latencies) == sent` for every `send_batch` report, and the merged
latency list of `send_emails` has exactly `successfully_sent` entries. -/
theorem latency_count_eq_sent (env : Env) (env_for : Nat → Env) (elapsed : ℚ)
    (mpc : Nat) (batch emails : List EmailData) (batch_size : Nat) :
    (send_batch env mpc batch).message_latencies.length =
      (send_batch env mpc batch).sent_count ∧
    (((batches_of batch_size emails).mapIdx fun j b =>
        (send_batch (env_for j) mpc b).message_latencies).flatten).length =
      (send_emails env_for elapsed mpc emails batch_size).successfully_sent := by
  refine ⟨send_batch_latency_len env mpc batch, ?_⟩
  unfold send_emails
  simp only [List.mapIdx_eq_enum_map, List.map_map, List.length_flatten]
  congr 1
  apply List.map_congr_left
  intro a _
  simpa [Function.comp, Function.uncurry] using send_batch_latency_len (env_for a.1) mpc a.2

/-! ## Batch partitioning (claim C6) -/

theorem chunk_count_arith (b n : Nat) (hb : 0 < b) (hn : 0 < n) :
    (n - b + b - 1) / b + 1 = (n + b - 1) / b := by
  rcases Nat.lt_or_ge n (b + 1) with hlt | hge
  · have h1 : n - b = 0 := by omega
    rw [h1]
    have h2 : (0 + b - 1) / b = 0 := Nat.div_eq_of_lt (by omega)
    rw [h2]
    have h3 : n + b - 1 = (n - 1) + b := by omega
    rw [h3, Nat.add_div_right _ hb]
    have h4 : (n - 1) / b = 0 := Nat.div_eq_of_lt (by omega)
    omega
  · have h3 : n + b - 1 = (n - b + b - 1) + b := by omega
    rw [h3, Nat.add_div_right _ hb]

theorem batches_of_flatten {α : Type} (b : Nat) (hb : 0 < b) (l : List α) :
    (batches_of b l).flatten = l := by
  induction l using batches_of.induct b with
  | case1 => simp [batches_of]
  | case2 e es h => omega
  | case3 e es h ih =>
    rw [batches_of]
    simp only [if_neg h, List.flatten_cons, ih]
    exact List.take_append_drop b (e :: es)

theorem batches_of_sizes {α : Type} (b : Nat) (hb : 0 < b) (l : List α) :
    ∀ c ∈ batches_of b l, c.length ≤ b := by
  induction l using batches_of.induct b with
  | case1 => simp [batches_of]
  | case2 e es h => omega
  | case3 e es h ih =>
    intro c hc
    rw [batches_of, if_neg h] at hc
    rcases List.mem_cons.mp hc with rfl | hc
    · simp
    · exact ih c hc

theorem batches_of_full_init {α : Type} (b : Nat) (hb : 0 < b) (l : List α) :
    ∀ c ∈ (batches_of b l).dropLast, c.length = b := by
  induction l using batches_of.induct b with
  | case1 => simp [batches_of]
  | case2 e es h => omega
  | case3 e es h ih =>
    intro c hc
    rw [batches_of, if_neg h] at hc
    rcases hrest : batches_of b ((e :: es).drop b) with _ | ⟨c2, cs⟩
    · rw [hrest] at hc
      simp at hc
    · rw [hrest, List.dropLast_cons_of_ne_nil (by simp)] at hc
      rcases List.mem_cons.mp hc with rfl | hc
      · have hlen : b < (e :: es).length := by
          by_contra hle
          push_neg at hle
          have hnil : (e :: es).drop b = [] := List.drop_eq_nil_of_le hle
          rw [hnil] at hrest
          simp [batches_of] at hrest
        simp only [List.length_take, List.length_cons] at *
        omega
      · rw [← hrest] at hc
        exact ih c hc

theorem batches_of_count {α : Type} (b : Nat) (hb : 0 < b) (l : List α) :
    (batches_of b l).length = (l.length + b - 1) / b := by
  induction l using batches_of.induct b with
  | case1 =>
    simp only [batches_of, List.length_nil, Nat.zero_add]
    exact (Nat.div_eq_of_lt (by omega)).symm
  | case2 e es h => omega
  | case3 e es h ih =>
    rw [batches_of, if_neg h]
    simp only [List.length_cons, ih, List.length_drop]
    exact chunk_count_arith b (es.length + 1) hb (by omega)

/-- Claim C6 — for every message list and positive `batch_size`, the
dispatcher's split produces consecutive order-preserving batches: their
concatenation is the original list, every batch has at most `batch_size`
messages, every batch except possibly the last has exactly `batch_size`,
and the batch count is `ceil(total / batch_size)`. -/
theorem dispatcher_partitions_messages (b : Nat) (hb : 0 < b) (emails : List EmailData) :
    (batches_of b emails).flatten = emails ∧
    (∀ c ∈ batches_of b emails, c.length ≤ b) ∧
    (∀ c ∈ (batches_of b emails).dropLast, c.length = b) ∧
    (batches_of b emails).length = (emails.length + b - 1) / b :=
  ⟨batches_of_flatten b hb emails, batches_of_sizes b hb emails,
    batches_of_full_init b hb emails, batches_of_count b hb emails⟩

theorem dispatcher_partitions_messages_witness :
    (batches_of 2 [okMsg 0, okMsg 1, okMsg 2]).flatten = [okMsg 0, okMsg 1, okMsg 2] ∧
    (∀ c ∈ batches_of 2 [okMsg 0, okMsg 1, okMsg 2], c.length ≤ 2) ∧
    (∀ c ∈ (batches_of 2 [okMsg 0, okMsg 1, okMsg 2]).dropLast, c.length = 2) ∧
    (batches_of 2 [okMsg 0, okMsg 1, okMsg 2]).length = (3 + 2 - 1) / 2 :=
  dispatcher_partitions_messages 2 (by decide) [okMsg 0, okMsg 1, okMsg 2]


/-! ## Result aggregation (claim C9) -/

theorem foldl_min_le_init (xs : List ℚ) : ∀ a : ℚ, xs.foldl min a ≤ a := by
  induction xs with
  | nil => intro a; exact le_refl a
  | cons x xs ih => intro a; exact le_trans (ih (min a x)) (min_le_left a x)

theorem foldl_min_le_mem (xs : List ℚ) : ∀ (a x : ℚ), x ∈ xs → xs.foldl min a ≤ x := by
  induction xs with
  | nil => intro a x hx; cases hx
  | cons y ys ih =>
    intro a x hx
    rcases List.mem_cons.mp hx with rfl | hx
    · exact le_trans (foldl_min_le_init ys (min a x)) (min_le_right a x)
    · exact ih (min a y) x hx

theorem foldl_min_mem (xs : List ℚ) : ∀ a : ℚ, xs.foldl min a = a ∨ xs.foldl min a ∈ xs := by
  induction xs with
  | nil => intro a; exact Or.inl rfl
  | cons y ys ih =>
    intro a
    rcases ih (min a y) with h | h
    · rcases min_choice a y with hm | hm
      · exact Or.inl (by rw [List.foldl_cons, h, hm])
      · exact Or.inr (by rw [List.foldl_cons, h, hm]; exact List.mem_cons_self y ys)
    · exact Or.inr (List.mem_cons_of_mem y h)

theorem foldl_max_init_le (xs : List ℚ) : ∀ a : ℚ, a ≤ xs.foldl max a := by
  induction xs with
  | nil => intro a; exact le_refl a
  | cons x xs ih => intro a; exact le_trans (le_max_left a x) (ih (max a x))

theorem foldl_max_mem_le (xs : List ℚ) : ∀ (a x : ℚ), x ∈ xs → x ≤ xs.foldl max a := by
  induction xs with
  | nil => intro a x hx; cases hx
  | cons y ys ih =>
    intro a x hx
    rcases List.mem_cons.mp hx with rfl | hx
    · exact le_trans (le_max_right a x) (foldl_max_init_le ys (max a x))
    · exact ih (max a y) x hx

theorem foldl_max_mem (xs : List ℚ) : ∀ a : ℚ, xs.foldl max a = a ∨ xs.foldl max a ∈ xs := by
  induction xs with
  | nil => intro a; exact Or.inl rfl
  | cons y ys ih =>
    intro a
    rcases ih (max a y) with h | h
    · rcases max_choice a y with hm | hm
      · exact Or.inl (by rw [List.foldl_cons, h, hm])
      · exact Or.inr (by rw [List.foldl_cons, h, hm]; exact List.mem_cons_self y ys)
    · exact Or.inr (List.mem_cons_of_mem y h)

theorem pyListMin_mem (l : List ℚ) (h : l ≠ []) : pyListMin l ∈ l := by
  match l with
  | [] => exact absurd rfl h
  | x :: xs =>
    rcases foldl_min_mem xs x with h2 | h2
    · rw [pyListMin, h2]; exact List.mem_cons_self x xs
    · rw [pyListMin]; exact List.mem_cons_of_mem x h2

theorem pyListMin_le (l : List ℚ) (x : ℚ) (hx : x ∈ l) : pyListMin l ≤ x := by
  match l with
  | [] => cases hx
  | y :: ys =>
    rcases List.mem_cons.mp hx with rfl | hmem
    · rw [pyListMin]; exact foldl_min_le_init ys x
    · rw [pyListMin]; exact foldl_min_le_mem ys y x hmem

theorem pyListMax_mem (l : List ℚ) (h : l ≠ []) : pyListMax l ∈ l := by
  match l with
  | [] => exact absurd rfl h
  | x :: xs =>
    rcases foldl_max_mem xs x with h2 | h2
    · rw [pyListMax, h2]; exact List.mem_cons_self x xs
    · rw [pyListMax]; exact List.mem_cons_of_mem x h2

theorem pyListMax_ge (l : List ℚ) (x : ℚ) (hx : x ∈ l) : x ≤ pyListMax l := by
  match l with
  | [] => cases hx
  | y :: ys =>
    rcases List.mem_cons.mp hx with rfl | hmem
    · rw [pyListMax]; exact foldl_max_init_le ys x
    · rw [pyListMax]; exact foldl_max_mem_le ys y x hmem

/-- Claim C9 — result aggregation: total sent is the sum of per-batch sent
counts, the failure list is the concatenation of the per-batch failure
lists, `rate = sent / elapsed` with `rate = 0` whenever `elapsed <= 0`, and
the latency min/avg/max are taken over the merged per-batch latency lists,
each `0` when that merged list is empty. -/
theorem send_emails_aggregation (env_for : Nat → Env) (elapsed : ℚ) (mpc : Nat)
    (emails : List EmailData) (b : Nat) :
    (send_emails env_for elapsed mpc emails b).successfully_sent =
      (((batches_of b emails).mapIdx fun j c => send_batch (env_for j) mpc c).map
          (·.sent_count)).sum ∧
    (send_emails env_for elapsed mpc emails b).failed_details =
      (((batches_of b emails).mapIdx fun j c => send_batch (env_for j) mpc c).map
          (·.failed_messages)).flatten ∧
    (send_emails env_for elapsed mpc emails b).failed =
      (send_emails env_for elapsed mpc emails b).failed_details.length ∧
    (elapsed ≤ 0 → (send_emails env_for elapsed mpc emails b).emails_per_second = 0) ∧
    (0 < elapsed → (send_emails env_for elapsed mpc emails b).emails_per_second =
      ((send_emails env_for elapsed mpc emails b).successfully_sent : ℚ) / elapsed) ∧
    ((((batches_of b emails).mapIdx fun j c => send_batch (env_for j) mpc c).map
          (·.message_latencies)).flatten = [] →
      (send_emails env_for elapsed mpc emails b).min_latency_ms = 0 ∧
      (send_emails env_for elapsed mpc emails b).avg_latency_ms = 0 ∧
      (send_emails env_for elapsed mpc emails b).max_latency_ms = 0) ∧
    ((((batches_of b emails).mapIdx fun j c => send_batch (env_for j) mpc c).map
          (·.message_latencies)).flatten ≠ [] →
      (send_emails env_for elapsed mpc emails b).min_latency_ms ∈
        (((batches_of b emails).mapIdx fun j c => send_batch (env_for j) mpc c).map
            (·.message_latencies)).flatten ∧
      (∀ x ∈ (((batches_of b emails).mapIdx fun j c => send_batch (env_for j) mpc c).map
            (·.message_latencies)).flatten,
        (send_emails env_for elapsed mpc emails b).min_latency_ms ≤ x) ∧
      (send_emails env_for elapsed mpc emails b).max_latency_ms ∈
        (((batches_of b emails).mapIdx fun j c => send_batch (env_for j) mpc c).map
            (·.message_latencies)).flatten ∧
      (∀ x ∈ (((batches_of b emails).mapIdx fun j c => send_batch (env_for j) mpc c).map
            (·.message_latencies)).flatten,
        x ≤ (send_emails env_for elapsed mpc emails b).max_latency_ms) ∧
      (send_emails env_for elapsed mpc emails b).avg_latency_ms *
          (((((batches_of b emails).mapIdx fun j c => send_batch (env_for j) mpc c).map
              (·.message_latencies)).flatten).length : ℚ) =
        ((((batches_of b emails).mapIdx fun j c => send_batch (env_for j) mpc c).map
            (·.message_latencies)).flatten).sum) := by
  refine ⟨rfl, rfl, rfl, ?_, ?_, ?_, ?_⟩
  · intro h
    simp only [send_emails]
    rw [if_neg (not_lt.mpr h)]
  · intro h
    simp only [send_emails]
    rw [if_pos h]
  · intro h
    simp only [send_emails]
    rw [if_neg (not_not_intro h), if_neg (not_not_intro h), if_neg (not_not_intro h)]
    exact ⟨rfl, rfl, rfl⟩
  · intro h
    have hlen : ((((batches_of b emails).mapIdx fun j c =>
        send_batch (env_for j) mpc c).map (·.message_latencies)).flatten.length : ℚ) ≠ 0 := by
      exact_mod_cast fun hz => h (List.length_eq_zero.mp hz)
    refine ⟨?_, ?_, ?_, ?_, ?_⟩
    · simp only [send_emails]
      rw [if_pos h]
      exact pyListMin_mem _ h
    · intro x hx
      simp only [send_emails]
      rw [if_pos h]
      exact pyListMin_le _ x hx
    · simp only [send_emails]
      rw [if_pos h]
      exact pyListMax_mem _ h
    · intro x hx
      simp only [send_emails]
      rw [if_pos h]
      exact pyListMax_ge _ x hx
    · simp only [send_emails]
      rw [if_pos h]
      exact div_mul_cancel₀ _ hlen

theorem send_emails_aggregation_witness :
    (send_emails (fun _ => envAllOk) (1 : ℚ) 10 [okMsg 0] 1).successfully_sent =
      (((batches_of 1 [okMsg 0]).mapIdx fun j c => send_batch ((fun _ => envAllOk) j) 10 c).map
          (·.sent_count)).sum ∧
    (send_emails (fun _ => envAllOk) (1 : ℚ) 10 [okMsg 0] 1).failed_details =
      (((batches_of 1 [okMsg 0]).mapIdx fun j c => send_batch ((fun _ => envAllOk) j) 10 c).map
          (·.failed_messages)).flatten ∧
    (send_emails (fun _ => envAllOk) (1 : ℚ) 10 [okMsg 0] 1).failed =
      (send_emails (fun _ => envAllOk) (1 : ℚ) 10 [okMsg 0] 1).failed_details.length ∧
    ((1 : ℚ) ≤ 0 → (send_emails (fun _ => envAllOk) (1 : ℚ) 10 [okMsg 0] 1).emails_per_second = 0) ∧
    (0 < (1 : ℚ) → (send_emails (fun _ => envAllOk) (1 : ℚ) 10 [okMsg 0] 1).emails_per_second =
      ((send_emails (fun _ => envAllOk) (1 : ℚ) 10 [okMsg 0] 1).successfully_sent : ℚ) / (1 : ℚ)) ∧
    ((((batches_of 1 [okMsg 0]).mapIdx fun j c => send_batch ((fun _ => envAllOk) j) 10 c).map
          (·.message_latencies)).flatten = [] →
      (send_emails (fun _ => envAllOk) (1 : ℚ) 10 [okMsg 0] 1).min_latency_ms = 0 ∧
      (send_emails (fun _ => envAllOk) (1 : ℚ) 10 [okMsg 0] 1).avg_latency_ms = 0 ∧
      (send_emails (fun _ => envAllOk) (1 : ℚ) 10 [okMsg 0] 1).max_latency_ms = 0) ∧
    ((((batches_of 1 [okMsg 0]).mapIdx fun j c => send_batch ((fun _ => envAllOk) j) 10 c).map
          (·.message_latencies)).flatten ≠ [] →
      (send_emails (fun _ => envAllOk) (1 : ℚ) 10 [okMsg 0] 1).min_latency_ms ∈
        (((batches_of 1 [okMsg 0]).mapIdx fun j c => send_batch ((fun _ => envAllOk) j) 10 c).map
            (·.message_latencies)).flatten ∧
      (∀ x ∈ (((batches_of 1 [okMsg 0]).mapIdx fun j c => send_batch ((fun _ => envAllOk) j) 10 c).map
            (·.message_latencies)).flatten,
        (send_emails (fun _ => envAllOk) (1 : ℚ) 10 [okMsg 0] 1).min_latency_ms ≤ x) ∧
      (send_emails (fun _ => envAllOk) (1 : ℚ) 10 [okMsg 0] 1).max_latency_ms ∈
        (((batches_of 1 [okMsg 0]).mapIdx fun j c => send_batch ((fun _ => envAllOk) j) 10 c).map
            (·.message_latencies)).flatten ∧
      (∀ x ∈ (((batches_of 1 [okMsg 0]).mapIdx fun j c => send_batch ((fun _ => envAllOk) j) 10 c).map
            (·.message_latencies)).flatten,
        x ≤ (send_emails (fun _ => envAllOk) (1 : ℚ) 10 [okMsg 0] 1).max_latency_ms) ∧
      (send_emails (fun _ => envAllOk) (1 : ℚ) 10 [okMsg 0] 1).avg_latency_ms *
          (((((batches_of 1 [okMsg 0]).mapIdx fun j c => send_batch ((fun _ => envAllOk) j) 10 c).map
              (·.message_latencies)).flatten).length : ℚ) =
        ((((batches_of 1 [okMsg 0]).mapIdx fun j c => send_batch ((fun _ => envAllOk) j) 10 c).map
            (·.message_latencies)).flatten).sum) :=
  send_emails_aggregation (fun _ => envAllOk) (1 : ℚ) 10 [okMsg 0] 1


/-! ## Failure isolation (claim C4) -/

theorem process_try_events_extend (env : Env) (mpc len i : Nat) (d : EmailData) (s : SendState) :
    s.events <+: (process_try env mpc len i d s).2.events := by
  simp only [process_try, do_quit, create_smtp_connection]
  repeat' split
  all_goals try split_ifs at *
  all_goals subst_eqs
  all_goals simp [List.append_assoc]

theorem handle_msg_exn_events_extend (env : Env) (d : EmailData) (e : PyErr) (s : SendState) :
    s.events <+: (handle_msg_exn env d e s).2.events := by
  simp only [handle_msg_exn, do_quit, create_smtp_connection]
  repeat' split
  all_goals try split_ifs at *
  all_goals subst_eqs
  all_goals simp [List.append_assoc]

theorem send_batch_loop_events_extend (env : Env) (mpc len : Nat) (rest : List EmailData) :
    ∀ (i : Nat) (s : SendState),
      s.events <+: (send_batch_loop env mpc len rest i s).2.events := by
  induction rest with
  | nil => intro i s; exact List.prefix_refl _
  | cons d rest ih =>
    intro i s
    rcases hp : process_try env mpc len i d
        { s with events := s.events ++ [Event.msg_start i] } with ⟨tr, s'⟩
    have h1 : s.events <+: s'.events := by
      have := process_try_events_extend env mpc len i d
        { s with events := s.events ++ [Event.msg_start i] }
      rw [hp] at this
      exact (List.prefix_append s.events [Event.msg_start i]).trans this
    cases tr with
    | ok =>
      simp only [send_batch_loop, hp]
      exact h1.trans (ih (i + 1) s')
    | exn e =>
      rcases hh : handle_msg_exn env d e s' with ⟨esc, s''⟩
      have h2 : s.events <+: s''.events := by
        have := handle_msg_exn_events_extend env d e s'
        rw [hh] at this
        exact h1.trans this
      cases esc with
      | none =>
        simp only [send_batch_loop, hp, hh]
        exact h2.trans (ih (i + 1) s'')
      | some be =>
        simp only [send_batch_loop, hp, hh]
        exact h2

theorem handle_msg_exn_no_escape (env : Env) (hconn : ∀ n, env.connect n = true)
    (d : EmailData) (hd : d.is_dict = true) (e : PyErr) (s : SendState) :
    (handle_msg_exn env d e s).1 = none := by
  simp only [handle_msg_exn, do_quit, create_smtp_connection]
  repeat' split
  all_goals try split_ifs at *
  all_goals subst_eqs
  all_goals simp_all

theorem send_batch_loop_attempts_all (env : Env) (hconn : ∀ n, env.connect n = true)
    (mpc len : Nat) (rest : List EmailData) :
    (∀ d ∈ rest, d.is_dict = true) →
    ∀ (i : Nat) (s : SendState) (j : Nat), j < rest.length →
      Event.msg_start (i + j) ∈ (send_batch_loop env mpc len rest i s).2.events := by
  induction rest with
  | nil => intro _ i s j hj; cases hj
  | cons d rest ih =>
    intro hdict i s j hj
    rcases hp : process_try env mpc len i d
        { s with events := s.events ++ [Event.msg_start i] } with ⟨tr, s'⟩
    have hms : Event.msg_start i ∈ s'.events := by
      have := process_try_events_extend env mpc len i d
        { s with events := s.events ++ [Event.msg_start i] }
      rw [hp] at this
      exact this.subset (by simp)
    cases tr with
    | ok =>
      simp only [send_batch_loop, hp]
      rcases j with _ | j
      · exact (send_batch_loop_events_extend env mpc len rest (i + 1) s').subset
          (by simpa using hms)
      · have hlt : j < rest.length := by
          simp only [List.length_cons] at hj
          omega
        have := ih (fun d2 hd2 => hdict d2 (List.mem_cons_of_mem d hd2)) (i + 1) s' j hlt
        have heq : i + (j + 1) = i + 1 + j := by omega
        rw [heq]
        exact this
    | exn e =>
      rcases hh : handle_msg_exn env d e s' with ⟨esc, s''⟩
      have hesc : esc = none := by
        have := handle_msg_exn_no_escape env hconn d (hdict d (by simp)) e s'
        rw [hh] at this
        exact this
      subst hesc
      have hms2 : Event.msg_start i ∈ s''.events := by
        have := handle_msg_exn_events_extend env d e s'
        rw [hh] at this
        exact this.subset hms
      simp only [send_batch_loop, hp, hh]
      rcases j with _ | j
      · exact (send_batch_loop_events_extend env mpc len rest (i + 1) s'').subset
          (by simpa using hms2)
      · have hlt : j < rest.length := by
          simp only [List.length_cons] at hj
          omega
        have := ih (fun d2 hd2 => hdict d2 (List.mem_cons_of_mem d hd2)) (i + 1) s'' j hlt
        have heq : i + (j + 1) = i + 1 + j := by omega
        rw [heq]
        exact this

theorem mark_remaining_failed_events (batch : List EmailData) (r : Option PyErr × SendState) :
    (mark_remaining_failed batch r).events = r.2.events := by
  unfold mark_remaining_failed
  split <;> rfl

theorem final_cleanup_events_extend (env : Env) (s : SendState) :
    s.events <+: (final_cleanup env s).events := by
  unfold final_cleanup do_quit
  split
  · exact List.prefix_refl _
  · exact List.prefix_append _ _

/-- Claim C4 — failure isolation: over a batch of dict entries (the
spec's Message data model), whenever every replacement connection can be
opened, the worker starts a delivery attempt for every message index of
the batch, whatever per-message failures earlier messages hit: a send
failure at index `k` never prevents the attempts at indices above `k`.
(The dict hypothesis is needed: a non-dict list entry makes the handler's
log line raise `AttributeError`, aborting the loop — see
`handle_msg_exn`.) -/
theorem failure_isolation (env : Env) (mpc : Nat) (batch : List EmailData)
    (hconn : ∀ n, env.connect n = true) (hdict : ∀ d ∈ batch, d.is_dict = true) :
    ∀ i < batch.length, Event.msg_start i ∈ (send_batch env mpc batch).events := by
  intro i hi
  unfold send_batch
  rcases hc : create_smtp_connection env ({} : SendState) with ⟨oc, s1⟩
  have hoc : oc = some 0 := by
    simp [create_smtp_connection, hconn 0] at hc
    exact hc.1.symm
  subst hoc
  refine (final_cleanup_events_extend env _).subset ?_
  rw [mark_remaining_failed_events]
  simpa using send_batch_loop_attempts_all env hconn mpc batch.length batch hdict 0
    { s1 with smtp := some 0 } i hi

theorem failure_isolation_witness :
    (∀ n, envMailZeroFails.connect n = true) ∧
    (∀ d ∈ [okMsg 0, okMsg 1], d.is_dict = true) ∧
    Event.msg_start 1 ∈ (send_batch envMailZeroFails 10 [okMsg 0, okMsg 1]).events ∧
    (send_batch envMailZeroFails 10 [okMsg 0, okMsg 1]).failed_messages =
      [(okMsg 0, ErrEntry.individual PyErr.mail_from_failed)] ∧
    (send_batch envMailZeroFails 10 [okMsg 0, okMsg 1]).sent_count = 1 :=
  ⟨fun _ => rfl, by decide,
    failure_isolation envMailZeroFails 10 [okMsg 0, okMsg 1] (fun _ => rfl)
      (by decide) 1 (by decide),
    by decide, by decide⟩


/-! ## Outcome accounting at the failing inputs (claims C1, C2, C3) -/

/-- Claim C1 (code bug) — evaluation at the failing input: one message
with a missing subject, replacement connection unavailable.  The message
first gets an individual validation failure; the outer handler then
re-appends `batch[sent_count:] = batch[0:]`, so the run reports
`sent = 0` and `failed = 2` for a single input message:
`sent + failed != total`. -/
theorem sent_plus_failed_ne_total_eval :
    (send_emails (fun _ => envReconnectFails) 1 10 [noSubjectMsg 0] 1).total_emails = 1 ∧
    (send_emails (fun _ => envReconnectFails) 1 10 [noSubjectMsg 0] 1).successfully_sent = 0 ∧
    (send_emails (fun _ => envReconnectFails) 1 10 [noSubjectMsg 0] 1).failed = 2 ∧
    (send_emails (fun _ => envReconnectFails) 1 10 [noSubjectMsg 0] 1).failed_details =
      [(noSubjectMsg 0, ErrEntry.individual (PyErr.missing_required ["subject"])),
       (noSubjectMsg 0, ErrEntry.batch_error PyErr.connect_failed)] := by
  have hb : batches_of 1 [noSubjectMsg 0] = [[noSubjectMsg 0]] := by
    rw [batches_of.eq_def]
    norm_num
    rw [batches_of.eq_def]
  refine ⟨?_, ?_, ?_, ?_⟩ <;> simp only [send_emails, hb] <;> decide

/-- Claim C2 (code bug) — evaluation at the failing input: the outer
handler appends `batch[sent_count:]`, not the unattempted remainder.
Message 0 fails validation (so it was attempted, `msg_start 0` is in the
trace, and it already has its individual outcome), the replacement open
fails, and the batch-error slice starting at `sent_count = 0` re-includes
message 0. -/
theorem batch_error_slice_eval :
    (send_batch envReconnectFails 10 [noSubjectMsg 0, okMsg 1, okMsg 2]).sent_count = 0 ∧
    Event.msg_start 0 ∈
      (send_batch envReconnectFails 10 [noSubjectMsg 0, okMsg 1, okMsg 2]).events ∧
    (send_batch envReconnectFails 10 [noSubjectMsg 0, okMsg 1, okMsg 2]).failed_messages =
      [(noSubjectMsg 0, ErrEntry.individual (PyErr.missing_required ["subject"])),
       (noSubjectMsg 0, ErrEntry.batch_error PyErr.connect_failed),
       (okMsg 1, ErrEntry.batch_error PyErr.connect_failed),
       (okMsg 2, ErrEntry.batch_error PyErr.connect_failed)] := by
  refine ⟨rfl, by decide, by decide⟩

/-- Claim C3 (code bug) — evaluation at the failing input: a validation
failure records a failure for that message only and issues no
MAIL/RCPT/DATA for it, but the per-message handler still QUITs the current
session and opens a replacement (`quit_call 0 .. failure_replace` followed
by `opened 1`), contradicting "the Session is neither closed nor
replaced". -/
theorem validation_failure_replaces_session_eval :
    (send_batch envAllOk 10 [noSubjectMsg 0, okMsg 1]).events =
      [Event.connect_attempt true, Event.opened 0, Event.msg_start 0,
       Event.validation_failed 0,
       Event.quit_call 0 (CmdRes.code 221) QuitCtx.failure_replace,
       Event.connect_attempt true, Event.opened 1, Event.msg_start 1,
       Event.cmd_issued "MAIL" 1, Event.cmd_issued "RCPT" 1, Event.cmd_issued "DATA" 1,
       Event.sent_ok 1, Event.quit_call 1 (CmdRes.code 221) QuitCtx.cleanup] ∧
    (send_batch envAllOk 10 [noSubjectMsg 0, okMsg 1]).failed_messages =
      [(noSubjectMsg 0, ErrEntry.individual (PyErr.missing_required ["subject"]))] ∧
    (send_batch envAllOk 10 [noSubjectMsg 0, okMsg 1]).sent_count = 1 := by
  refine ⟨by decide, by decide, rfl⟩

/-! ## The timing summary (claim C10) -/

/-- Claim C10 counterexample — with no recorded samples at all, the
summary still contains the `message_smtp_commands` key (mapped to an
empty per-command dict): a phase key with zero recorded samples is
present, not absent. -/
theorem timing_summary_keeps_empty_command_key :
    ({} : TimingStats).message_smtp_commands.MAIL = [] ∧
    ({} : TimingStats).message_smtp_commands.RCPT = [] ∧
    ({} : TimingStats).message_smtp_commands.DATA = [] ∧
    ({} : TimingStats).message_smtp_commands.MESSAGE = [] ∧
    ({} : TimingStats).message_smtp_commands.QUIT = [] ∧
    get_timing_summary ({} : TimingStats) =
      [("message_smtp_commands", SummaryVal.cmds [])] := by
  refine ⟨rfl, rfl, rfl, rfl, rfl, by decide⟩


/-- Claim C10 amended — the summary omits every list-valued phase key with
zero recorded samples and every present entry is exactly the
min/avg/max/total/count record of its sample list; the
`message_smtp_commands` key is the exception: it is always present
(possibly as an empty per-command dict), and inside it each per-command
entry is present exactly when that command has samples. -/
theorem get_timing_summary_spec (t : TimingStats) (times : List ℚ) (h : times ≠ []) :
    ("message_smtp_commands", SummaryVal.cmds (cmd_summary t.message_smtp_commands)) ∈
      get_timing_summary t ∧
    (t.connection_setup_total = [] → ∀ v, ("connection_setup_total", v) ∉ get_timing_summary t) ∧
    (t.connection_setup_total ≠ [] →
      ("connection_setup_total", SummaryVal.plain (stat_entry t.connection_setup_total)) ∈ get_timing_summary t) ∧
    (t.connection_initial = [] → ∀ v, ("connection_initial", v) ∉ get_timing_summary t) ∧
    (t.connection_initial ≠ [] →
      ("connection_initial", SummaryVal.plain (stat_entry t.connection_initial)) ∈ get_timing_summary t) ∧
    (t.connection_ehlo = [] → ∀ v, ("connection_ehlo", v) ∉ get_timing_summary t) ∧
    (t.connection_ehlo ≠ [] →
      ("connection_ehlo", SummaryVal.plain (stat_entry t.connection_ehlo)) ∈ get_timing_summary t) ∧
    (t.connection_tls = [] → ∀ v, ("connection_tls", v) ∉ get_timing_summary t) ∧
    (t.connection_tls ≠ [] →
      ("connection_tls", SummaryVal.plain (stat_entry t.connection_tls)) ∈ get_timing_summary t) ∧
    (t.connection_post_tls_ehlo = [] → ∀ v, ("connection_post_tls_ehlo", v) ∉ get_timing_summary t) ∧
    (t.connection_post_tls_ehlo ≠ [] →
      ("connection_post_tls_ehlo", SummaryVal.plain (stat_entry t.connection_post_tls_ehlo)) ∈ get_timing_summary t) ∧
    (t.authentication = [] → ∀ v, ("authentication", v) ∉ get_timing_summary t) ∧
    (t.authentication ≠ [] →
      ("authentication", SummaryVal.plain (stat_entry t.authentication)) ∈ get_timing_summary t) ∧
    (t.message_creation = [] → ∀ v, ("message_creation", v) ∉ get_timing_summary t) ∧
    (t.message_creation ≠ [] →
      ("message_creation", SummaryVal.plain (stat_entry t.message_creation)) ∈ get_timing_summary t) ∧
    (t.message_send = [] → ∀ v, ("message_send", v) ∉ get_timing_summary t) ∧
    (t.message_send ≠ [] →
      ("message_send", SummaryVal.plain (stat_entry t.message_send)) ∈ get_timing_summary t) ∧
    (t.connection_refresh = [] → ∀ v, ("connection_refresh", v) ∉ get_timing_summary t) ∧
    (t.connection_refresh ≠ [] →
      ("connection_refresh", SummaryVal.plain (stat_entry t.connection_refresh)) ∈ get_timing_summary t) ∧
    (t.connection_cleanup = [] → ∀ v, ("connection_cleanup", v) ∉ get_timing_summary t) ∧
    (t.connection_cleanup ≠ [] →
      ("connection_cleanup", SummaryVal.plain (stat_entry t.connection_cleanup)) ∈ get_timing_summary t) ∧
    (t.message_smtp_commands.MAIL = [] →
      ∀ e, ("MAIL", e) ∉ cmd_summary t.message_smtp_commands) ∧
    (t.message_smtp_commands.MAIL ≠ [] →
      ("MAIL", stat_entry t.message_smtp_commands.MAIL) ∈ cmd_summary t.message_smtp_commands) ∧
    (t.message_smtp_commands.RCPT = [] →
      ∀ e, ("RCPT", e) ∉ cmd_summary t.message_smtp_commands) ∧
    (t.message_smtp_commands.RCPT ≠ [] →
      ("RCPT", stat_entry t.message_smtp_commands.RCPT) ∈ cmd_summary t.message_smtp_commands) ∧
    (t.message_smtp_commands.DATA = [] →
      ∀ e, ("DATA", e) ∉ cmd_summary t.message_smtp_commands) ∧
    (t.message_smtp_commands.DATA ≠ [] →
      ("DATA", stat_entry t.message_smtp_commands.DATA) ∈ cmd_summary t.message_smtp_commands) ∧
    (t.message_smtp_commands.MESSAGE = [] →
      ∀ e, ("MESSAGE", e) ∉ cmd_summary t.message_smtp_commands) ∧
    (t.message_smtp_commands.MESSAGE ≠ [] →
      ("MESSAGE", stat_entry t.message_smtp_commands.MESSAGE) ∈ cmd_summary t.message_smtp_commands) ∧
    (t.message_smtp_commands.QUIT = [] →
      ∀ e, ("QUIT", e) ∉ cmd_summary t.message_smtp_commands) ∧
    (t.message_smtp_commands.QUIT ≠ [] →
      ("QUIT", stat_entry t.message_smtp_commands.QUIT) ∈ cmd_summary t.message_smtp_commands) ∧
    (stat_entry times).count = times.length ∧
    (stat_entry times).total = times.sum ∧
    (stat_entry times).min ∈ times ∧
    (∀ x ∈ times, (stat_entry times).min ≤ x) ∧
    (stat_entry times).max ∈ times ∧
    (∀ x ∈ times, x ≤ (stat_entry times).max) ∧
    (stat_entry times).avg * (times.length : ℚ) = times.sum := by
  refine ⟨?_, ?_, ?_, ?_, ?_, ?_, ?_, ?_, ?_, ?_, ?_, ?_, ?_, ?_, ?_, ?_, ?_, ?_, ?_, ?_, ?_, ?_, ?_, ?_, ?_, ?_, ?_, ?_, ?_, ?_, ?_, ?_, ?_, ?_, ?_, ?_, ?_, ?_⟩
  · simp [get_timing_summary]
  · intro h0 v
    simp [get_timing_summary, h0]
  · intro h0
    simp [get_timing_summary, h0]
  · intro h0 v
    simp [get_timing_summary, h0]
  · intro h0
    simp [get_timing_summary, h0]
  · intro h0 v
    simp [get_timing_summary, h0]
  · intro h0
    simp [get_timing_summary, h0]
  · intro h0 v
    simp [get_timing_summary, h0]
  · intro h0
    simp [get_timing_summary, h0]
  · intro h0 v
    simp [get_timing_summary, h0]
  · intro h0
    simp [get_timing_summary, h0]
  · intro h0 v
    simp [get_timing_summary, h0]
  · intro h0
    simp [get_timing_summary, h0]
  · intro h0 v
    simp [get_timing_summary, h0]
  · intro h0
    simp [get_timing_summary, h0]
  · intro h0 v
    simp [get_timing_summary, h0]
  · intro h0
    simp [get_timing_summary, h0]
  · intro h0 v
    simp [get_timing_summary, h0]
  · intro h0
    simp [get_timing_summary, h0]
  · intro h0 v
    simp [get_timing_summary, h0]
  · intro h0
    simp [get_timing_summary, h0]
  · intro h0 e
    simp [cmd_summary, h0]
  · intro h0
    simp [cmd_summary, h0]
  · intro h0 e
    simp [cmd_summary, h0]
  · intro h0
    simp [cmd_summary, h0]
  · intro h0 e
    simp [cmd_summary, h0]
  · intro h0
    simp [cmd_summary, h0]
  · intro h0 e
    simp [cmd_summary, h0]
  · intro h0
    simp [cmd_summary, h0]
  · intro h0 e
    simp [cmd_summary, h0]
  · intro h0
    simp [cmd_summary, h0]
  · simp [stat_entry]
  · simp [stat_entry]
  · simpa [stat_entry] using pyListMin_mem times h
  · intro x hx
    simpa [stat_entry] using pyListMin_le times x hx
  · simpa [stat_entry] using pyListMax_mem times h
  · intro x hx
    simpa [stat_entry] using pyListMax_ge times x hx
  · simp only [stat_entry]
    exact div_mul_cancel₀ _ (by exact_mod_cast fun hz => h (List.length_eq_zero.mp hz))

theorem get_timing_summary_spec_witness :
    ("message_smtp_commands", SummaryVal.cmds (cmd_summary ({} : TimingStats).message_smtp_commands)) ∈
      get_timing_summary ({} : TimingStats) ∧
    (({} : TimingStats).connection_setup_total = [] → ∀ v, ("connection_setup_total", v) ∉ get_timing_summary ({} : TimingStats)) ∧
    (({} : TimingStats).connection_setup_total ≠ [] →
      ("connection_setup_total", SummaryVal.plain (stat_entry ({} : TimingStats).connection_setup_total)) ∈ get_timing_summary ({} : TimingStats)) ∧
    (({} : TimingStats).connection_initial = [] → ∀ v, ("connection_initial", v) ∉ get_timing_summary ({} : TimingStats)) ∧
    (({} : TimingStats).connection_initial ≠ [] →
      ("connection_initial", SummaryVal.plain (stat_entry ({} : TimingStats).connection_initial)) ∈ get_timing_summary ({} : TimingStats)) ∧
    (({} : TimingStats).connection_ehlo = [] → ∀ v, ("connection_ehlo", v) ∉ get_timing_summary ({} : TimingStats)) ∧
    (({} : TimingStats).connection_ehlo ≠ [] →
      ("connection_ehlo", SummaryVal.plain (stat_entry ({} : TimingStats).connection_ehlo)) ∈ get_timing_summary ({} : TimingStats)) ∧
    (({} : TimingStats).connection_tls = [] → ∀ v, ("connection_tls", v) ∉ get_timing_summary ({} : TimingStats)) ∧
    (({} : TimingStats).connection_tls ≠ [] →
      ("connection_tls", SummaryVal.plain (stat_entry ({} : TimingStats).connection_tls)) ∈ get_timing_summary ({} : TimingStats)) ∧
    (({} : TimingStats).connection_post_tls_ehlo = [] → ∀ v, ("connection_post_tls_ehlo", v) ∉ get_timing_summary ({} : TimingStats)) ∧
    (({} : TimingStats).connection_post_tls_ehlo ≠ [] →
      ("connection_post_tls_ehlo", SummaryVal.plain (stat_entry ({} : TimingStats).connection_post_tls_ehlo)) ∈ get_timing_summary ({} : TimingStats)) ∧
    (({} : TimingStats).authentication = [] → ∀ v, ("authentication", v) ∉ get_timing_summary ({} : TimingStats)) ∧
    (({} : TimingStats).authentication ≠ [] →
      ("authentication", SummaryVal.plain (stat_entry ({} : TimingStats).authentication)) ∈ get_timing_summary ({} : TimingStats)) ∧
    (({} : TimingStats).message_creation = [] → ∀ v, ("message_creation", v) ∉ get_timing_summary ({} : TimingStats)) ∧
    (({} : TimingStats).message_creation ≠ [] →
      ("message_creation", SummaryVal.plain (stat_entry ({} : TimingStats).message_creation)) ∈ get_timing_summary ({} : TimingStats)) ∧
    (({} : TimingStats).message_send = [] → ∀ v, ("message_send", v) ∉ get_timing_summary ({} : TimingStats)) ∧
    (({} : TimingStats).message_send ≠ [] →
      ("message_send", SummaryVal.plain (stat_entry ({} : TimingStats).message_send)) ∈ get_timing_summary ({} : TimingStats)) ∧
    (({} : TimingStats).connection_refresh = [] → ∀ v, ("connection_refresh", v) ∉ get_timing_summary ({} : TimingStats)) ∧
    (({} : TimingStats).connection_refresh ≠ [] →
      ("connection_refresh", SummaryVal.plain (stat_entry ({} : TimingStats).connection_refresh)) ∈ get_timing_summary ({} : TimingStats)) ∧
    (({} : TimingStats).connection_cleanup = [] → ∀ v, ("connection_cleanup", v) ∉ get_timing_summary ({} : TimingStats)) ∧
    (({} : TimingStats).connection_cleanup ≠ [] →
      ("connection_cleanup", SummaryVal.plain (stat_entry ({} : TimingStats).connection_cleanup)) ∈ get_timing_summary ({} : TimingStats)) ∧
    (({} : TimingStats).message_smtp_commands.MAIL = [] →
      ∀ e, ("MAIL", e) ∉ cmd_summary ({} : TimingStats).message_smtp_commands) ∧
    (({} : TimingStats).message_smtp_commands.MAIL ≠ [] →
      ("MAIL", stat_entry ({} : TimingStats).message_smtp_commands.MAIL) ∈ cmd_summary ({} : TimingStats).message_smtp_commands) ∧
    (({} : TimingStats).message_smtp_commands.RCPT = [] →
      ∀ e, ("RCPT", e) ∉ cmd_summary ({} : TimingStats).message_smtp_commands) ∧
    (({} : TimingStats).message_smtp_commands.RCPT ≠ [] →
      ("RCPT", stat_entry ({} : TimingStats).message_smtp_commands.RCPT) ∈ cmd_summary ({} : TimingStats).message_smtp_commands) ∧
    (({} : TimingStats).message_smtp_commands.DATA = [] →
      ∀ e, ("DATA", e) ∉ cmd_summary ({} : TimingStats).message_smtp_commands) ∧
    (({} : TimingStats).message_smtp_commands.DATA ≠ [] →
      ("DATA", stat_entry ({} : TimingStats).message_smtp_commands.DATA) ∈ cmd_summary ({} : TimingStats).message_smtp_commands) ∧
    (({} : TimingStats).message_smtp_commands.MESSAGE = [] →
      ∀ e, ("MESSAGE", e) ∉ cmd_summary ({} : TimingStats).message_smtp_commands) ∧
    (({} : TimingStats).message_smtp_commands.MESSAGE ≠ [] →
      ("MESSAGE", stat_entry ({} : TimingStats).message_smtp_commands.MESSAGE) ∈ cmd_summary ({} : TimingStats).message_smtp_commands) ∧
    (({} : TimingStats).message_smtp_commands.QUIT = [] →
      ∀ e, ("QUIT", e) ∉ cmd_summary ({} : TimingStats).message_smtp_commands) ∧
    (({} : TimingStats).message_smtp_commands.QUIT ≠ [] →
      ("QUIT", stat_entry ({} : TimingStats).message_smtp_commands.QUIT) ∈ cmd_summary ({} : TimingStats).message_smtp_commands) ∧
    (stat_entry ([2, 1, 3] : List ℚ)).count = ([2, 1, 3] : List ℚ).length ∧
    (stat_entry ([2, 1, 3] : List ℚ)).total = ([2, 1, 3] : List ℚ).sum ∧
    (stat_entry ([2, 1, 3] : List ℚ)).min ∈ ([2, 1, 3] : List ℚ) ∧
    (∀ x ∈ ([2, 1, 3] : List ℚ), (stat_entry ([2, 1, 3] : List ℚ)).min ≤ x) ∧
    (stat_entry ([2, 1, 3] : List ℚ)).max ∈ ([2, 1, 3] : List ℚ) ∧
    (∀ x ∈ ([2, 1, 3] : List ℚ), x ≤ (stat_entry ([2, 1, 3] : List ℚ)).max) ∧
    (stat_entry ([2, 1, 3] : List ℚ)).avg * (([2, 1, 3] : List ℚ).length : ℚ) = ([2, 1, 3] : List ℚ).sum :=
  get_timing_summary_spec ({} : TimingStats) ([2, 1, 3] : List ℚ) (by decide)


/-! ## Scheduled session refresh (claim C5) -/

theorem refreshPositions_append (a b : List Event) :
    refreshPositions (a ++ b) = refreshPositions a ++ refreshPositions b := by
  simp [refreshPositions, List.filterMap_append]

theorem process_try_all_ok (env : Env) (H : AllOk env) (mpc len i : Nat) (d : EmailData)
    (hd : validMessage d) (s : SendState) :
    (process_try env mpc len i d s).1 = TryRes.ok ∧
    refreshPositions (process_try env mpc len i d s).2.events =
      refreshPositions s.events ++
        (if (i + 1) % mpc = 0 ∧ i + 1 < len then [i] else []) := by
  simp only [process_try, do_quit, create_smtp_connection, H.mail, H.rcpt, H.data, H.quit,
    H.connect, hd.1, hd.2]
  repeat' split
  all_goals try casesm* _ ∧ _
  all_goals subst_eqs
  all_goals simp_all [refreshPositions, List.filterMap_append]

theorem send_batch_loop_all_ok (env : Env) (H : AllOk env) (mpc len : Nat)
    (rest : List EmailData) :
    ∀ (i : Nat) (s : SendState), (∀ d ∈ rest, validMessage d) →
      (send_batch_loop env mpc len rest i s).1 = none ∧
      refreshPositions (send_batch_loop env mpc len rest i s).2.events =
        refreshPositions s.events ++
          (List.range' i rest.length).filter
            (fun j => decide ((j + 1) % mpc = 0 ∧ j + 1 < len)) := by
  induction rest with
  | nil => intro i s _; exact ⟨rfl, by simp [send_batch_loop]⟩
  | cons d rest ih =>
    intro i s hvalid
    rcases hp : process_try env mpc len i d
        { s with events := s.events ++ [Event.msg_start i] } with ⟨tr, s'⟩
    have hpt := process_try_all_ok env H mpc len i d (hvalid d (by simp))
        { s with events := s.events ++ [Event.msg_start i] }
    rw [hp] at hpt
    simp only at hpt
    rcases hpt with ⟨htr, hpos⟩
    subst htr
    have hstep := ih (i + 1) s' (fun d2 hd2 => hvalid d2 (List.mem_cons_of_mem d hd2))
    refine ⟨?_, ?_⟩
    · simp only [send_batch_loop, hp]
      exact hstep.1
    · simp only [send_batch_loop, hp]
      rw [hstep.2, hpos]
      have hstart : refreshPositions ({ s with
          events := s.events ++ [Event.msg_start i] } : SendState).events =
          refreshPositions s.events := by
        simp [refreshPositions, List.filterMap_append]
      rw [hstart]
      rw [List.length_cons, List.range'_succ, List.filter_cons]
      by_cases hc : (i + 1) % mpc = 0 ∧ i + 1 < len
      · simp [hc, List.append_assoc]
      · simp [hc, List.append_assoc]

theorem final_cleanup_refreshPositions (env : Env) (s : SendState) :
    refreshPositions (final_cleanup env s).events = refreshPositions s.events := by
  unfold final_cleanup do_quit
  split
  · rfl
  · simp [refreshPositions, List.filterMap_append]

/-- Claim C5 — scheduled refresh: in an all-successful run over a batch of
valid messages, the session is refreshed exactly after the messages at
positions `i` with `(i + 1) % refreshThreshold = 0` and
`i + 1 < len(batch)` — after every `refreshThreshold`-th attempted (and
here successful) message while more remain, and never after the final
message; for a batch of 5 with threshold 2 that is exactly after messages
2 and 4. -/
theorem scheduled_refresh_schedule (env : Env) (mpc : Nat) (batch : List EmailData)
    (H : AllOk env) (hvalid : ∀ d ∈ batch, validMessage d) :
    refreshPositions (send_batch env mpc batch).events =
      (List.range batch.length).filter
        (fun j => decide ((j + 1) % mpc = 0 ∧ j + 1 < batch.length)) := by
  unfold send_batch
  have hcv : create_smtp_connection env ({} : SendState) =
      (some 0,
        { n_connect := 1, events := [Event.connect_attempt true, Event.opened 0] }) := by
    simp [create_smtp_connection, H.connect 0]
  simp only [hcv]
  rw [final_cleanup_refreshPositions, mark_remaining_failed_events]
  rw [(send_batch_loop_all_ok env H mpc batch.length batch 0 _ hvalid).2]
  simp [refreshPositions, List.range_eq_range']

theorem scheduled_refresh_schedule_witness :
    refreshPositions
        (send_batch envAllOk 2 [okMsg 0, okMsg 1, okMsg 2, okMsg 3, okMsg 4]).events =
      [1, 3] :=
  (scheduled_refresh_schedule envAllOk 2 [okMsg 0, okMsg 1, okMsg 2, okMsg 3, okMsg 4]
    ⟨fun _ => rfl, fun _ => rfl, fun _ => rfl, fun _ => rfl, fun _ => rfl⟩
    (by intro d hd; fin_cases hd <;> exact ⟨rfl, rfl⟩)).trans (by decide)


/-! ## Session lifecycle (claim C7) -/

theorem openedIds_append (a b : List Event) :
    openedIds (a ++ b) = openedIds a ++ openedIds b := by
  simp [openedIds, List.filterMap_append]

theorem quitIds_append (a b : List Event) :
    quitIds (a ++ b) = quitIds a ++ quitIds b := by
  simp [quitIds, List.filterMap_append]

theorem process_try_shape (env : Env) (mpc len i : Nat) (d : EmailData) (s : SendState) :
    ((process_try env mpc len i d s).2.smtp = s.smtp ∧
      (process_try env mpc len i d s).2.n_connect = s.n_connect ∧
      openedIds (process_try env mpc len i d s).2.events = openedIds s.events ∧
      quitIds (process_try env mpc len i d s).2.events = quitIds s.events) ∨
    (env.quit s.n_quit = CmdRes.raised ∧
      (process_try env mpc len i d s).2.smtp = s.smtp ∧
      (process_try env mpc len i d s).2.n_connect = s.n_connect ∧
      openedIds (process_try env mpc len i d s).2.events = openedIds s.events ∧
      quitIds (process_try env mpc len i d s).2.events =
        quitIds s.events ++ [s.smtp.getD 0]) ∨
    (env.connect s.n_connect = false ∧
      (process_try env mpc len i d s).2.smtp = s.smtp ∧
      (process_try env mpc len i d s).2.n_connect = s.n_connect + 1 ∧
      openedIds (process_try env mpc len i d s).2.events = openedIds s.events ∧
      quitIds (process_try env mpc len i d s).2.events =
        quitIds s.events ++ [s.smtp.getD 0]) ∨
    ((process_try env mpc len i d s).2.smtp = some s.n_connect ∧
      (process_try env mpc len i d s).2.n_connect = s.n_connect + 1 ∧
      openedIds (process_try env mpc len i d s).2.events =
        openedIds s.events ++ [s.n_connect] ∧
      quitIds (process_try env mpc len i d s).2.events =
        quitIds s.events ++ [s.smtp.getD 0]) := by
  simp only [process_try, do_quit, create_smtp_connection]
  repeat' split
  all_goals try split_ifs at *
  all_goals try casesm* _ ∧ _
  all_goals subst_eqs
  all_goals first
    | (refine Or.inl ⟨?_, ?_, ?_, ?_⟩ <;>
        simp_all [openedIds, quitIds, List.filterMap_append]
       done)
    | (refine Or.inr (Or.inl ⟨?_, ?_, ?_, ?_, ?_⟩) <;>
        simp_all [openedIds, quitIds, List.filterMap_append]
       done)
    | (refine Or.inr (Or.inr (Or.inl ⟨?_, ?_, ?_, ?_, ?_⟩)) <;>
        simp_all [openedIds, quitIds, List.filterMap_append]
       done)
    | (refine Or.inr (Or.inr (Or.inr ⟨?_, ?_, ?_, ?_⟩)) <;>
        simp_all [openedIds, quitIds, List.filterMap_append]
       done)

theorem handle_msg_exn_shape (env : Env) (d : EmailData) (e : PyErr) (s : SendState) :
    ((handle_msg_exn env d e s).2.smtp = s.smtp ∧
      (handle_msg_exn env d e s).2.n_connect = s.n_connect ∧
      openedIds (handle_msg_exn env d e s).2.events = openedIds s.events ∧
      quitIds (handle_msg_exn env d e s).2.events = quitIds s.events) ∨
    (env.connect s.n_connect = false ∧
      (handle_msg_exn env d e s).1 = some PyErr.connect_failed ∧
      (handle_msg_exn env d e s).2.smtp = s.smtp ∧
      (handle_msg_exn env d e s).2.n_connect = s.n_connect + 1 ∧
      openedIds (handle_msg_exn env d e s).2.events = openedIds s.events ∧
      quitIds (handle_msg_exn env d e s).2.events =
        quitIds s.events ++ [s.smtp.getD 0]) ∨
    ((handle_msg_exn env d e s).1 = none ∧
      (handle_msg_exn env d e s).2.smtp = some s.n_connect ∧
      (handle_msg_exn env d e s).2.n_connect = s.n_connect + 1 ∧
      openedIds (handle_msg_exn env d e s).2.events =
        openedIds s.events ++ [s.n_connect] ∧
      quitIds (handle_msg_exn env d e s).2.events =
        quitIds s.events ++ [s.smtp.getD 0]) := by
  simp only [handle_msg_exn, do_quit, create_smtp_connection]
  repeat' split
  all_goals try split_ifs at *
  all_goals try casesm* _ ∧ _
  all_goals subst_eqs
  all_goals first
    | (refine Or.inl ⟨?_, ?_, ?_, ?_⟩ <;>
        simp_all [openedIds, quitIds, List.filterMap_append]
       done)
    | (refine Or.inr (Or.inl ⟨?_, ?_, ?_, ?_, ?_, ?_⟩) <;>
        simp_all [openedIds, quitIds, List.filterMap_append]
       done)
    | (refine Or.inr (Or.inr ⟨?_, ?_, ?_, ?_, ?_⟩) <;>
        simp_all [openedIds, quitIds, List.filterMap_append]
       done)


theorem process_try_quitInv (env : Env) (mpc len i : Nat) (d : EmailData) (s : SendState)
    (h : quitInv s) : quitInv (process_try env mpc len i d s).2 := by
  rcases process_try_shape env mpc len i d s with
    ⟨h1, h2, h3, h4⟩ | ⟨hq, h1, h2, h3, h4⟩ | ⟨hc, h1, h2, h3, h4⟩ | ⟨h1, h2, h3, h4⟩
  · intro sid hsid
    rw [h3] at hsid
    rw [h4, h1]
    exact h sid hsid
  · intro sid hsid
    rw [h3] at hsid
    rw [h4, h1]
    rcases h sid hsid with hm | hm
    · exact Or.inl (List.mem_append_left _ hm)
    · exact Or.inr hm
  · intro sid hsid
    rw [h3] at hsid
    rw [h4, h1]
    rcases h sid hsid with hm | hm
    · exact Or.inl (List.mem_append_left _ hm)
    · exact Or.inr hm
  · intro sid hsid
    rw [h3] at hsid
    rw [h4, h1]
    rcases List.mem_append.mp hsid with hm | hm
    · rcases h sid hm with hm2 | hm2
      · exact Or.inl (List.mem_append_left _ hm2)
      · have hgd : s.smtp.getD 0 = sid := by rw [hm2]; rfl
        exact Or.inl (List.mem_append_right _ (by simp [hgd]))
    · simp only [List.mem_singleton] at hm
      exact Or.inr (by rw [hm])

theorem handle_msg_exn_quitInv (env : Env) (d : EmailData) (e : PyErr) (s : SendState)
    (h : quitInv s) : quitInv (handle_msg_exn env d e s).2 := by
  rcases handle_msg_exn_shape env d e s with
    ⟨h1, h2, h3, h4⟩ | ⟨hc, he, h1, h2, h3, h4⟩ | ⟨he, h1, h2, h3, h4⟩
  · intro sid hsid
    rw [h3] at hsid
    rw [h4, h1]
    exact h sid hsid
  · intro sid hsid
    rw [h3] at hsid
    rw [h4, h1]
    rcases h sid hsid with hm | hm
    · exact Or.inl (List.mem_append_left _ hm)
    · exact Or.inr hm
  · intro sid hsid
    rw [h3] at hsid
    rw [h4, h1]
    rcases List.mem_append.mp hsid with hm | hm
    · rcases h sid hm with hm2 | hm2
      · exact Or.inl (List.mem_append_left _ hm2)
      · have hgd : s.smtp.getD 0 = sid := by rw [hm2]; rfl
        exact Or.inl (List.mem_append_right _ (by simp [hgd]))
    · simp only [List.mem_singleton] at hm
      exact Or.inr (by rw [hm])

theorem send_batch_loop_quitInv (env : Env) (mpc len : Nat) (rest : List EmailData) :
    ∀ (i : Nat) (s : SendState), quitInv s →
      quitInv (send_batch_loop env mpc len rest i s).2 := by
  induction rest with
  | nil => intro i s h; exact h
  | cons d rest ih =>
    intro i s h
    have hop : openedIds (s.events ++ [Event.msg_start i]) = openedIds s.events := by
      rw [openedIds_append]
      simp [openedIds]
    have hqt : quitIds (s.events ++ [Event.msg_start i]) = quitIds s.events := by
      rw [quitIds_append]
      simp [quitIds]
    have h1 : quitInv ({ s with events := s.events ++ [Event.msg_start i] } : SendState) := by
      intro sid hsid
      simp only [hop] at hsid
      simp only [hqt]
      exact h sid hsid
    rcases hp : process_try env mpc len i d
        { s with events := s.events ++ [Event.msg_start i] } with ⟨tr, s'⟩
    have h2 : quitInv s' := by
      have := process_try_quitInv env mpc len i d
        { s with events := s.events ++ [Event.msg_start i] } h1
      rwa [hp] at this
    cases tr with
    | ok => simpa only [send_batch_loop, hp] using ih (i + 1) s' h2
    | exn e =>
      rcases hh : handle_msg_exn env d e s' with ⟨esc, s''⟩
      have h3 : quitInv s'' := by
        have := handle_msg_exn_quitInv env d e s' h2
        rwa [hh] at this
      cases esc with
      | none => simpa only [send_batch_loop, hp, hh] using ih (i + 1) s'' h3
      | some be => simpa only [send_batch_loop, hp, hh] using h3

theorem mark_remaining_failed_smtp (batch : List EmailData) (r : Option PyErr × SendState) :
    (mark_remaining_failed batch r).smtp = r.2.smtp := by
  unfold mark_remaining_failed
  split <;> rfl

theorem mark_remaining_failed_n_connect (batch : List EmailData)
    (r : Option PyErr × SendState) :
    (mark_remaining_failed batch r).n_connect = r.2.n_connect := by
  unfold mark_remaining_failed
  split <;> rfl

theorem mark_remaining_failed_quitInv (batch : List EmailData)
    (r : Option PyErr × SendState) (h : quitInv r.2) : quitInv (mark_remaining_failed batch r) := by
  intro sid hsid
  rw [mark_remaining_failed_events] at hsid ⊢
  rw [mark_remaining_failed_smtp]
  exact h sid hsid

theorem final_cleanup_all_quit (env : Env) (s : SendState) (h : quitInv s) :
    ∀ sid ∈ openedIds (final_cleanup env s).events,
      sid ∈ quitIds (final_cleanup env s).events := by
  unfold final_cleanup do_quit
  cases hs : s.smtp with
  | none =>
    intro sid hsid
    rcases h sid hsid with hm | hm
    · exact hm
    · rw [hs] at hm
      cases hm
  | some cur =>
    intro sid hsid
    simp only [openedIds, quitIds, List.filterMap_append] at hsid ⊢
    rcases h sid (by simpa [openedIds] using hsid) with hm | hm
    · simp [quitIds] at hm
      simp [hm]
    · rw [hs] at hm
      injection hm with hm
      simp [hm]

theorem quitOnceInv_refresh_step (s s' : SendState) (h : quitOnceInv s)
    (hsm : s'.smtp = some s.n_connect) (hn : s'.n_connect = s.n_connect + 1)
    (hop : openedIds s'.events = openedIds s.events ++ [s.n_connect])
    (hqt : quitIds s'.events = quitIds s.events ++ [s.smtp.getD 0]) :
    quitOnceInv s' := by
  obtain ⟨hb1, hb2, hnd, cur, hcur, hcuro, hcnt0, hrest⟩ := h
  have hgd : s.smtp.getD 0 = cur := by rw [hcur]; rfl
  have hcurlt : cur < s.n_connect := hb1 cur hcuro
  refine ⟨?_, ?_, ?_, s.n_connect, hsm, ?_, ?_, ?_⟩
  · intro sid hsid
    rw [hop] at hsid
    rw [hn]
    rcases List.mem_append.mp hsid with hm | hm
    · exact lt_trans (hb1 sid hm) (Nat.lt_succ_self _)
    · simp only [List.mem_singleton] at hm
      omega
  · intro sid hsid
    rw [hqt] at hsid
    rw [hn]
    rcases List.mem_append.mp hsid with hm | hm
    · exact lt_trans (hb2 sid hm) (Nat.lt_succ_self _)
    · simp only [List.mem_singleton] at hm
      omega
  · rw [hop, List.nodup_append]
    refine ⟨hnd, List.nodup_singleton _, ?_⟩
    intro a ha hb
    simp only [List.mem_singleton] at hb
    subst hb
    exact absurd (hb1 _ ha) (lt_irrefl _)
  · rw [hop]
    exact List.mem_append_right _ (List.mem_singleton.mpr rfl)
  · rw [hqt, hgd, List.count_append]
    have hz1 : (quitIds s.events).count s.n_connect = 0 :=
      List.count_eq_zero.mpr (fun hmem => absurd (hb2 _ hmem) (lt_irrefl _))
    have hz2 : ([cur] : List Nat).count s.n_connect = 0 :=
      List.count_eq_zero.mpr (by simp; omega)
    omega
  · intro sid hsid hne
    rw [hop] at hsid
    rcases List.mem_append.mp hsid with hm | hm
    · rw [hqt, hgd, List.count_append]
      by_cases hsc : sid = cur
      · subst hsc
        simp [hcnt0]
      · have h1 : (quitIds s.events).count sid = 1 := hrest sid hm hsc
        have h2 : ([cur] : List Nat).count sid = 0 :=
          List.count_eq_zero.mpr (by simp [hsc])
        omega
    · simp only [List.mem_singleton] at hm
      exact absurd hm hne

theorem process_try_quitOnceInv (env : Env) (mpc len i : Nat) (d : EmailData) (s : SendState)
    (hconn : ∀ n, env.connect n = true) (hq : ∀ n, env.quit n ≠ CmdRes.raised)
    (h : quitOnceInv s) : quitOnceInv (process_try env mpc len i d s).2 := by
  rcases process_try_shape env mpc len i d s with
    ⟨h1, h2, h3, h4⟩ | ⟨hqr, h1, h2, h3, h4⟩ | ⟨hcf, h1, h2, h3, h4⟩ | ⟨h1, h2, h3, h4⟩
  · obtain ⟨hb1, hb2, hnd, cur, hcur, hcuro, hcnt0, hrest⟩ := h
    exact ⟨by rw [h3, h2]; exact hb1, by rw [h4, h2]; exact hb2, by rw [h3]; exact hnd,
      cur, by rw [h1]; exact hcur, by rw [h3]; exact hcuro, by rw [h4]; exact hcnt0,
      by rw [h3, h4]; exact hrest⟩
  · exact absurd hqr (hq s.n_quit)
  · exact absurd hcf (by simp [hconn s.n_connect])
  · exact quitOnceInv_refresh_step s _ h h1 h2 h3 h4

theorem handle_msg_exn_quitOnceInv (env : Env) (d : EmailData) (e : PyErr) (s : SendState)
    (hconn : ∀ n, env.connect n = true) (h : quitOnceInv s) :
    quitOnceInv (handle_msg_exn env d e s).2 := by
  rcases handle_msg_exn_shape env d e s with
    ⟨h1, h2, h3, h4⟩ | ⟨hcf, he, h1, h2, h3, h4⟩ | ⟨he, h1, h2, h3, h4⟩
  · obtain ⟨hb1, hb2, hnd, cur, hcur, hcuro, hcnt0, hrest⟩ := h
    exact ⟨by rw [h3, h2]; exact hb1, by rw [h4, h2]; exact hb2, by rw [h3]; exact hnd,
      cur, by rw [h1]; exact hcur, by rw [h3]; exact hcuro, by rw [h4]; exact hcnt0,
      by rw [h3, h4]; exact hrest⟩
  · exact absurd hcf (by simp [hconn s.n_connect])
  · exact quitOnceInv_refresh_step s _ h h1 h2 h3 h4

theorem send_batch_loop_quitOnceInv (env : Env) (mpc len : Nat) (rest : List EmailData)
    (hconn : ∀ n, env.connect n = true) (hq : ∀ n, env.quit n ≠ CmdRes.raised) :
    ∀ (i : Nat) (s : SendState), quitOnceInv s →
      quitOnceInv (send_batch_loop env mpc len rest i s).2 := by
  induction rest with
  | nil => intro i s h; exact h
  | cons d rest ih =>
    intro i s h
    have hop : openedIds (s.events ++ [Event.msg_start i]) = openedIds s.events := by
      rw [openedIds_append]
      simp [openedIds]
    have hqt : quitIds (s.events ++ [Event.msg_start i]) = quitIds s.events := by
      rw [quitIds_append]
      simp [quitIds]
    have h1 : quitOnceInv ({ s with events := s.events ++ [Event.msg_start i] } : SendState) := by
      obtain ⟨hb1, hb2, hnd, cur, hcur, hcuro, hcnt0, hrest⟩ := h
      exact ⟨by simp only [hop]; exact hb1, by simp only [hqt]; exact hb2,
        by simp only [hop]; exact hnd, cur, hcur, by simp only [hop]; exact hcuro,
        by simp only [hqt]; exact hcnt0, by simp only [hop, hqt]; exact hrest⟩
    rcases hp : process_try env mpc len i d
        { s with events := s.events ++ [Event.msg_start i] } with ⟨tr, s'⟩
    have h2 : quitOnceInv s' := by
      have := process_try_quitOnceInv env mpc len i d
        { s with events := s.events ++ [Event.msg_start i] } hconn hq h1
      rwa [hp] at this
    cases tr with
    | ok => simpa only [send_batch_loop, hp] using ih (i + 1) s' h2
    | exn e =>
      rcases hh : handle_msg_exn env d e s' with ⟨esc, s''⟩
      have h3 : quitOnceInv s'' := by
        have := handle_msg_exn_quitOnceInv env d e s' hconn h2
        rwa [hh] at this
      cases esc with
      | none => simpa only [send_batch_loop, hp, hh] using ih (i + 1) s'' h3
      | some be => simpa only [send_batch_loop, hp, hh] using h3

theorem mark_remaining_failed_quitOnceInv (batch : List EmailData)
    (r : Option PyErr × SendState) (h : quitOnceInv r.2) :
    quitOnceInv (mark_remaining_failed batch r) := by
  obtain ⟨hb1, hb2, hnd, cur, hcur, hcuro, hcnt0, hrest⟩ := h
  exact ⟨by rw [mark_remaining_failed_events, mark_remaining_failed_n_connect]; exact hb1,
    by rw [mark_remaining_failed_events, mark_remaining_failed_n_connect]; exact hb2,
    by rw [mark_remaining_failed_events]; exact hnd, cur,
    by rw [mark_remaining_failed_smtp]; exact hcur,
    by rw [mark_remaining_failed_events]; exact hcuro,
    by rw [mark_remaining_failed_events]; exact hcnt0,
    by rw [mark_remaining_failed_events]; exact hrest⟩

theorem final_cleanup_quit_once (env : Env) (s : SendState) (h : quitOnceInv s) :
    ∀ sid ∈ openedIds (final_cleanup env s).events,
      (quitIds (final_cleanup env s).events).count sid = 1 := by
  obtain ⟨hb1, hb2, hnd, cur, hcur, hcuro, hcnt0, hrest⟩ := h
  unfold final_cleanup do_quit
  simp only [hcur]
  intro sid hsid
  have hop : openedIds (s.events ++ [Event.quit_call cur (env.quit s.n_quit) QuitCtx.cleanup]) =
      openedIds s.events := by
    rw [openedIds_append]
    simp [openedIds]
  have hqt : quitIds (s.events ++ [Event.quit_call cur (env.quit s.n_quit) QuitCtx.cleanup]) =
      quitIds s.events ++ [cur] := by
    rw [quitIds_append]
    simp [quitIds]
  simp only [hop] at hsid
  simp only [hqt, List.count_append]
  by_cases hsc : sid = cur
  · subst hsc
    simp [hcnt0]
  · have h1 : (quitIds s.events).count sid = 1 := hrest sid hsid hsc
    have h2 : ([cur] : List Nat).count sid = 0 := List.count_eq_zero.mpr (by simp [hsc])
    omega

/-- Claim C7 counterexample — the claim as stated is false: with
`refreshThreshold = 1`, a scheduled-refresh QUIT that raises and a failed
replacement open, the single session (id 0) receives three QUIT calls
(scheduled refresh, failure-path replacement, cleanup) rather than exactly
one, and the QUIT error is not swallowed: it is recorded as an individual
failure of message 0, which had already been sent (`sent_ok 0`). -/
theorem session_quit_thrice :
    openedIds (send_batch envQuitRaises 1 [okMsg 0, okMsg 1]).events = [0] ∧
    (quitIds (send_batch envQuitRaises 1 [okMsg 0, okMsg 1]).events).count 0 = 3 ∧
    (okMsg 0, ErrEntry.individual (PyErr.cmd_raised "QUIT")) ∈
      (send_batch envQuitRaises 1 [okMsg 0, okMsg 1]).failed_messages ∧
    Event.sent_ok 0 ∈ (send_batch envQuitRaises 1 [okMsg 0, okMsg 1]).events := by
  refine ⟨by decide, by decide, by decide, by decide⟩

/-- Claim C7 amended — session close accounting: in every run, every
session opened during a batch receives at least one QUIT call (the
`finally` cleanup and both replacement paths guarantee this, and
`send_batch` itself never propagates a QUIT error); and in runs where
every replacement connection opens and no QUIT raises, every session
receives exactly one QUIT call.  (A QUIT that raises during a scheduled
refresh is caught by the per-message handler — recorded as that message's
failure — and a session can then be QUIT again, as the counterexample
shows.) -/
theorem session_quit_accounting (env : Env) (mpc : Nat) (batch : List EmailData) :
    (∀ sid ∈ openedIds (send_batch env mpc batch).events,
        sid ∈ quitIds (send_batch env mpc batch).events) ∧
    ((∀ n, env.connect n = true) → (∀ n, env.quit n ≠ CmdRes.raised) →
      ∀ sid ∈ openedIds (send_batch env mpc batch).events,
        (quitIds (send_batch env mpc batch).events).count sid = 1) := by
  constructor
  · unfold send_batch
    apply final_cleanup_all_quit
    apply mark_remaining_failed_quitInv
    cases henv : env.connect 0 with
    | false =>
      have hcv : create_smtp_connection env ({} : SendState) =
          (none, { n_connect := 1, events := [Event.connect_attempt false] }) := by
        simp [create_smtp_connection, henv]
      simp only [hcv]
      intro sid hsid
      simp [openedIds] at hsid
    | true =>
      have hcv : create_smtp_connection env ({} : SendState) =
          (some 0,
            { n_connect := 1, events := [Event.connect_attempt true, Event.opened 0] }) := by
        simp [create_smtp_connection, henv]
      simp only [hcv]
      apply send_batch_loop_quitInv
      intro sid hsid
      simp [openedIds] at hsid
      subst hsid
      exact Or.inr rfl
  · intro hconn hq
    unfold send_batch
    apply final_cleanup_quit_once
    apply mark_remaining_failed_quitOnceInv
    have hcv : create_smtp_connection env ({} : SendState) =
        (some 0,
          { n_connect := 1, events := [Event.connect_attempt true, Event.opened 0] }) := by
      simp [create_smtp_connection, hconn 0]
    simp only [hcv]
    apply send_batch_loop_quitOnceInv env mpc batch.length batch hconn hq
    refine ⟨?_, ?_, ?_, 0, rfl, ?_, ?_, ?_⟩ <;>
      simp [openedIds, quitIds]

theorem session_quit_accounting_witness :
    (∀ n, envAllOk.connect n = true) ∧ (∀ n, envAllOk.quit n ≠ CmdRes.raised) ∧
    openedIds (send_batch envAllOk 1 [okMsg 0, okMsg 1, okMsg 2]).events = [0, 1, 2] ∧
    (∀ sid ∈ openedIds (send_batch envAllOk 1 [okMsg 0, okMsg 1, okMsg 2]).events,
      (quitIds (send_batch envAllOk 1 [okMsg 0, okMsg 1, okMsg 2]).events).count sid = 1) :=
  ⟨fun _ => rfl, fun _ => by simp [envAllOk], by decide,
    (session_quit_accounting envAllOk 1 [okMsg 0, okMsg 1, okMsg 2]).2
      (fun _ => rfl) (fun _ => by simp [envAllOk])⟩
end SparkPost
